import Mathlib

/-!
# Payment channel state service (escrow/state_service.go)

A shallow embedding of `StorageNonceMatchesWithBlockchainNonce` and
`GetChannelState`, and theorems about them.

Conventions of the embedding:

* `*big.Int` values are `Int`; byte slices are `List Nat`, and a slice that may
  be `nil` is an `Option (List Nat)`.
* A Go `error` is its message, a `String`; the Go result pair `(value, err)` is
  an `Except String value`.
* The Go result triple `(value, ok, err)` of a store read is a `Lookup`.
* The collaborators of the service (channel store, ledger reader, payment
  store) are functions of the key they are asked for: during one request the
  backing stores do not change. Every function also returns the list of
  collaborator reads it performed, in order.
* The section on collaborators with state gives the same two methods over
  collaborators whose answers depend on a state that each call may change, so
  that a later read can answer differently from an earlier one; over
  collaborators that only read, the two embeddings agree
  (`stateful_getChannelState_readsOnly`).
* Helper functions the file calls but does not define (`bytesToBigInt`,
  `bigIntToBytes`, `getSignerAddressFromMessage`, `PaymentID`) are parameters,
  collected in `Helpers`.
* Log statements have no effect on the results and are left out.
-/

namespace Escrow

/-- A byte slice. -/
abbrev Bytes := List Nat

/-- An account address (`common.Address`), compared by value. -/
abbrev Address := Nat

/-- The triple `(value, ok, err)` returned by a store read: `failed msg` when
`err != nil`, `missing` when `err == nil` and `ok` is false, `found v` otherwise. -/
inductive Lookup (α : Type) where
  | failed (err : String) : Lookup α
  | missing : Lookup α
  | found (value : α) : Lookup α
  deriving DecidableEq, Repr

/-- The key of a payment channel: `PaymentChannelKey{ID}`. -/
structure PaymentChannelKey where
  ID : Int
  deriving DecidableEq, Repr

/-- The fields of `PaymentChannelData` that the state service reads. -/
structure PaymentChannelData where
  ChannelID : Int
  Nonce : Int
  Signer : Address
  AuthorizedAmount : Int
  Signature : Option Bytes
  deriving DecidableEq, Repr

/-- The fields of `Payment` that the state service reads. -/
structure Payment where
  Amount : Int
  Signature : Option Bytes
  deriving DecidableEq, Repr

/-- The request message: `ChannelStateRequest`. -/
structure ChannelStateRequest where
  ChannelId : Bytes
  Signature : Bytes
  deriving DecidableEq, Repr

/-- The reply message `ChannelStateReply`; a field that is not set is `none`. -/
structure ChannelStateReply where
  CurrentNonce : Option Bytes := none
  CurrentSignedAmount : Option Bytes := none
  CurrentSignature : Option Bytes := none
  OldNonceSignedAmount : Option Bytes := none
  OldNonceSignature : Option Bytes := none
  deriving DecidableEq, Repr

/-- The interface `PaymentChannelService`: the Channel Store read
`PaymentChannel` and the Ledger Reader read `PaymentChannelFromBlockChain`. -/
structure PaymentChannelService where
  PaymentChannel : PaymentChannelKey → Lookup PaymentChannelData
  PaymentChannelFromBlockChain : PaymentChannelKey → Lookup PaymentChannelData

/-- The Payment Store: `PaymentStorage` with its `Get` method. -/
structure PaymentStorage where
  Get : String → Lookup Payment

/-- The struct `PaymentChannelStateService`. -/
structure PaymentChannelStateService where
  channelService : PaymentChannelService
  paymentStorage : PaymentStorage

/-- The helper functions called by the service and defined outside the file. -/
structure Helpers where
  bytesToBigInt : Bytes → Int
  bigIntToBytes : Int → Bytes
  getSignerAddressFromMessage : Bytes → Bytes → Except String Address
  PaymentID : Int → Int → String

/-- One read of a collaborator, as recorded in the read list. -/
inductive Access where
  | channelStore (key : PaymentChannelKey) : Access
  | ledger (key : PaymentChannelKey) : Access
  | paymentStore (paymentID : String) : Access
  deriving DecidableEq, Repr

/-- Whether a read is a read of the Payment Store. -/
def Access.isPaymentStore : Access → Bool
  | .paymentStore _ => true
  | _ => false

/-- Whether a read is a read of the Ledger Reader. -/
def Access.isLedger : Access → Bool
  | .ledger _ => true
  | _ => false

/-- The comparison `x.Cmp(y)` of `math/big`: -1, 0 or +1. -/
def Cmp (x y : Int) : Int :=
  if x < y then -1 else if x = y then 0 else 1

/-- The method `StorageNonceMatchesWithBlockchainNonce`: the result `(equal, err)`
and the reads performed. -/
def StorageNonceMatchesWithBlockchainNonce (service : PaymentChannelStateService)
    (key : PaymentChannelKey) : Except String Bool × List Access :=
  let h := service.channelService
  match h.PaymentChannel key with
  | .failed err => (.error err, [.channelStore key])
  | .missing =>
      (.error "unable to read channel details from storage.", [.channelStore key])
  | .found storageChannel =>
      match h.PaymentChannelFromBlockChain key with
      | .failed err =>
          (.error ("channel error:" ++ err), [.channelStore key, .ledger key])
      | .missing =>
          (.error "unable to read channel details from blockchain.",
            [.channelStore key, .ledger key])
      | .found blockchainChannel =>
          (.ok (decide (Cmp storageChannel.Nonce blockchainChannel.Nonce = 0)),
            [.channelStore key, .ledger key])

/-- The last two returns of `GetChannelState`: the reply built from the channel
record alone. -/
def currentStateReply (hp : Helpers) (channel : PaymentChannelData) : ChannelStateReply :=
  match channel.Signature with
  | none => { CurrentNonce := some (hp.bigIntToBytes channel.Nonce) }
  | some sig =>
      { CurrentNonce := some (hp.bigIntToBytes channel.Nonce)
        CurrentSignedAmount := some (hp.bigIntToBytes channel.AuthorizedAmount)
        CurrentSignature := some sig }

/-- The method `GetChannelState`: the result `(reply, err)` and the reads
performed. -/
def GetChannelState (hp : Helpers) (service : PaymentChannelStateService)
    (request : ChannelStateRequest) : Except String ChannelStateReply × List Access :=
  let channelID := hp.bytesToBigInt request.ChannelId
  let signature := request.Signature
  match hp.getSignerAddressFromMessage (hp.bigIntToBytes channelID) signature with
  | .error _ => (.error "incorrect signature", [])
  | .ok sender =>
      match service.channelService.PaymentChannel { ID := channelID } with
      | .failed err =>
          (.error ("channel error:" ++ err), [.channelStore { ID := channelID }])
      | .missing =>
          (.error ("channel is not found, channelId: " ++ toString channelID),
            [.channelStore { ID := channelID }])
      | .found channel =>
          if channel.Signer ≠ sender then
            (.error "only channel signer can get latest channel state",
              [.channelStore { ID := channelID }])
          else
            let check := StorageNonceMatchesWithBlockchainNonce service { ID := channelID }
            let reads := Access.channelStore { ID := channelID } :: check.2
            match check.1 with
            | .ok false =>
                let paymentID := hp.PaymentID channel.ChannelID (channel.Nonce - 1)
                match service.paymentStorage.Get paymentID with
                | .failed err => (.error err, reads ++ [.paymentStore paymentID])
                | .missing =>
                    (.error "channel has different nonce in local storage and blockchain",
                      reads ++ [.paymentStore paymentID])
                | .found payment =>
                    (.ok
                      { CurrentNonce := some (hp.bigIntToBytes channel.Nonce)
                        CurrentSignedAmount := some (hp.bigIntToBytes channel.AuthorizedAmount)
                        CurrentSignature := channel.Signature
                        OldNonceSignedAmount := some (hp.bigIntToBytes payment.Amount)
                        OldNonceSignature := payment.Signature },
                      reads ++ [.paymentStore paymentID])
            | _ => (.ok (currentStateReply hp channel), reads)

/-! ## Sample collaborators, used to evaluate the definitions -/

/-- Big-endian decoding of a byte slice, as a sample `bytesToBigInt`. -/
def sampleBytesToBigInt (bytes : Bytes) : Int :=
  Int.ofNat (bytes.foldl (fun acc b => acc * 256 + b % 256) 0)

/-- Big-endian encoding of the low 32 bytes, as a sample `bigIntToBytes`. -/
def sampleBigIntToBytes (value : Int) : Bytes :=
  (List.range 32).map (fun i => (value.toNat / 256 ^ (31 - i)) % 256)

/-- A sample signer recovery: a 65-byte signature recovers to the address held
in its first byte, any other length is rejected. -/
def sampleRecover (_message signature : Bytes) : Except String Address :=
  if signature.length = 65 then .ok (signature.headD 0)
  else .error "invalid signature length"

/-- The sample helpers. -/
def sampleHelpers : Helpers where
  bytesToBigInt := sampleBytesToBigInt
  bigIntToBytes := sampleBigIntToBytes
  getSignerAddressFromMessage := sampleRecover
  PaymentID := fun channelID nonce => toString channelID ++ "/" ++ toString nonce

/-- A 65-byte signature recovering to `signer` under `sampleRecover`. -/
def sampleSignature (signer : Address) : Bytes :=
  signer :: List.replicate 64 0

/-- The channel of the examples: ID 7, signer 10, nonce 3, amount 100, signed. -/
def sampleChannel : PaymentChannelData where
  ChannelID := 7
  Nonce := 3
  Signer := 10
  AuthorizedAmount := 100
  Signature := some [120]

/-- Another record for channel 7 and signer 10: nonce 5, amount 1, no signature. -/
def sampleChannelUnsigned : PaymentChannelData where
  ChannelID := 7
  Nonce := 5
  Signer := 10
  AuthorizedAmount := 1
  Signature := none

/-- The ledger record of channel 7 with nonce `nonce`. -/
def sampleLedgerChannel (nonce : Int) : PaymentChannelData where
  ChannelID := 7
  Nonce := nonce
  Signer := 10
  AuthorizedAmount := 0
  Signature := none

/-- The payment of the examples: amount 80 with a signature. -/
def samplePayment : Payment where
  Amount := 80
  Signature := some [121]

/-- A channel service holding `channel` under key 7 and reporting the ledger
read `ledger` for that key. -/
def sampleChannelService (channel ledger : Lookup PaymentChannelData) : PaymentChannelService where
  PaymentChannel := fun key => if key.ID = 7 then channel else .missing
  PaymentChannelFromBlockChain := fun key => if key.ID = 7 then ledger else .missing

/-- A service over the sample channel service and a payment store answering
`payment` at the identifier "7/2" and nothing elsewhere. -/
def sampleService (channel ledger : Lookup PaymentChannelData) (payment : Lookup Payment) :
    PaymentChannelStateService where
  channelService := sampleChannelService channel ledger
  paymentStorage := { Get := fun paymentID => if paymentID = "7/2" then payment else .missing }

/-- A request for channel 7 signed by `signer`. -/
def sampleRequest (signer : Address) : ChannelStateRequest where
  ChannelId := [7]
  Signature := sampleSignature signer

/-! ## Authentication and authorization -/

/-- The signer recovery that `GetChannelState` performs for a request: over the
byte encoding of the decoded channel id and the request signature. -/
def recoveredSigner (hp : Helpers) (request : ChannelStateRequest) : Except String Address :=
  hp.getSignerAddressFromMessage (hp.bigIntToBytes (hp.bytesToBigInt request.ChannelId))
    request.Signature

/-- The key under which `GetChannelState` reads the Channel Store and the ledger. -/
def requestKey (hp : Helpers) (request : ChannelStateRequest) : PaymentChannelKey :=
  { ID := hp.bytesToBigInt request.ChannelId }

/-- The Channel Store read of `GetChannelState` for a request. -/
def storedChannel (hp : Helpers) (service : PaymentChannelStateService)
    (request : ChannelStateRequest) : Lookup PaymentChannelData :=
  service.channelService.PaymentChannel (requestKey hp request)

/-- The Ledger Reader read for a request. -/
def ledgerChannel (hp : Helpers) (service : PaymentChannelStateService)
    (request : ChannelStateRequest) : Lookup PaymentChannelData :=
  service.channelService.PaymentChannelFromBlockChain (requestKey hp request)

/-- The Payment Store read at the fallback identifier of a channel:
`PaymentID(channel.ChannelID, channel.Nonce - 1)`. -/
def fallbackPayment (hp : Helpers) (service : PaymentChannelStateService)
    (channel : PaymentChannelData) : Lookup Payment :=
  service.paymentStorage.Get (hp.PaymentID channel.ChannelID (channel.Nonce - 1))

/-- Whether a read is a read of the Channel Store. -/
def Access.isChannelStore : Access → Bool
  | .channelStore _ => true
  | _ => false

/-- The place of a collaborator in the order of reads: Channel Store 0, Ledger
Reader 1, Payment Store 2. -/
def Access.rank : Access → Nat
  | .channelStore _ => 0
  | .ledger _ => 1
  | .paymentStore _ => 2

/-- Whether two services give the same answer to a read. -/
def Access.sameAnswer (service other : PaymentChannelStateService) : Access → Bool
  | .channelStore key =>
      decide (service.channelService.PaymentChannel key = other.channelService.PaymentChannel key)
  | .ledger key =>
      decide (service.channelService.PaymentChannelFromBlockChain key =
        other.channelService.PaymentChannelFromBlockChain key)
  | .paymentStore paymentID =>
      decide (service.paymentStorage.Get paymentID = other.paymentStorage.Get paymentID)

/-- The reply shape nonce-only: CurrentNonce and nothing else. -/
def ChannelStateReply.isNonceOnly (reply : ChannelStateReply) : Bool :=
  reply.CurrentNonce.isSome && reply.CurrentSignedAmount.isNone &&
    reply.CurrentSignature.isNone && reply.OldNonceSignedAmount.isNone &&
    reply.OldNonceSignature.isNone

/-- The reply shape current-only: CurrentNonce, CurrentSignedAmount and
CurrentSignature, and no old-nonce field. -/
def ChannelStateReply.isCurrentOnly (reply : ChannelStateReply) : Bool :=
  reply.CurrentNonce.isSome && reply.CurrentSignedAmount.isSome &&
    reply.CurrentSignature.isSome && reply.OldNonceSignedAmount.isNone &&
    reply.OldNonceSignature.isNone

/-- The reply shape dual-state: all five fields. -/
def ChannelStateReply.isDualState (reply : ChannelStateReply) : Bool :=
  reply.CurrentNonce.isSome && reply.CurrentSignedAmount.isSome &&
    reply.CurrentSignature.isSome && reply.OldNonceSignedAmount.isSome &&
    reply.OldNonceSignature.isSome

/-- A record for channel 7 and signer 10 as left by a started claim: nonce 3,
amount 0, no signature. -/
def sampleChannelClaimed : PaymentChannelData where
  ChannelID := 7
  Nonce := 3
  Signer := 10
  AuthorizedAmount := 0
  Signature := none

/-- A record for channel 7 and signer 10 with nonce 0 and no signature. -/
def sampleChannelFresh : PaymentChannelData where
  ChannelID := 7
  Nonce := 0
  Signer := 10
  AuthorizedAmount := 0
  Signature := none

/-- A service over the sample channel service and a payment store given as a
function. -/
def sampleServiceWith (channel ledger : Lookup PaymentChannelData)
    (payments : String → Lookup Payment) : PaymentChannelStateService where
  channelService := sampleChannelService channel ledger
  paymentStorage := { Get := payments }

/-- A payment store holding the sample payment under "7/2" and nothing else. -/
def samplePaymentsNarrow (paymentID : String) : Lookup Payment :=
  if paymentID = "7/2" then .found samplePayment else .missing

/-- A payment store holding the sample payment under "7/2", another payment
under "7/1" and "7/3", and failing elsewhere. -/
def samplePaymentsWide (paymentID : String) : Lookup Payment :=
  if paymentID = "7/2" then .found samplePayment
  else if paymentID = "7/1" then .found { Amount := 50, Signature := some [122] }
  else if paymentID = "7/3" then .found { Amount := 100, Signature := some [120] }
  else .failed "down"

/-- A payment store holding the sample payment under the identifier of channel 7
and nonce -1, and nothing else. -/
def samplePaymentsBelowZero (paymentID : String) : Lookup Payment :=
  if paymentID = "7/-1" then .found samplePayment else .missing

/-- The reply to the sample channel on the fallback path: nonce 3, amount 100
and signature [120], with the old-nonce amount 80 and signature [121]. -/
def sampleDualStateReply : ChannelStateReply where
  CurrentNonce := some (sampleBigIntToBytes 3)
  CurrentSignedAmount := some (sampleBigIntToBytes 100)
  CurrentSignature := some [120]
  OldNonceSignedAmount := some (sampleBigIntToBytes 80)
  OldNonceSignature := some [121]

/-! ## Collaborators with state

The interface methods are called one after the other, and a collaborator may
answer a later call differently from an earlier one: `GetChannelState` reads
the Channel Store at the start and `StorageNonceMatchesWithBlockchainNonce`
reads it again. Here each collaborator method takes the state of the backing
stores and returns its answer with the state after the call, and the two
methods of the service pass the state along from call to call. -/

/-- The collaborators of the service as methods over a state `σ` of the backing
stores: the Channel Store read, the Ledger Reader read and the Payment Store
read, each returning its answer and the state after the call. -/
structure StatefulService (σ : Type) where
  PaymentChannel : PaymentChannelKey → σ → Lookup PaymentChannelData × σ
  PaymentChannelFromBlockChain : PaymentChannelKey → σ → Lookup PaymentChannelData × σ
  paymentStorageGet : String → σ → Lookup Payment × σ

/-- The collaborators leave the state of the stores as it is: their three
methods are reads. -/
def StatefulService.ReadsOnly {σ : Type} (service : StatefulService σ) : Prop :=
  (∀ key s, (service.PaymentChannel key s).2 = s) ∧
    (∀ key s, (service.PaymentChannelFromBlockChain key s).2 = s) ∧
    ∀ paymentID s, (service.paymentStorageGet paymentID s).2 = s

/-- The service over collaborators that answer every call as they would in the
state `s`. -/
def StatefulService.snapshot {σ : Type} (service : StatefulService σ) (s : σ) :
    PaymentChannelStateService where
  channelService :=
    { PaymentChannel := fun key => (service.PaymentChannel key s).1
      PaymentChannelFromBlockChain := fun key => (service.PaymentChannelFromBlockChain key s).1 }
  paymentStorage := { Get := fun paymentID => (service.paymentStorageGet paymentID s).1 }

/-- The method `StorageNonceMatchesWithBlockchainNonce` over collaborators with
state: the result `(equal, err)`, the reads performed, and the state after
the call. -/
def Stateful.StorageNonceMatchesWithBlockchainNonce {σ : Type} (service : StatefulService σ)
    (key : PaymentChannelKey) (s : σ) : (Except String Bool × List Access) × σ :=
  match service.PaymentChannel key s with
  | (.failed err, s1) => ((.error err, [.channelStore key]), s1)
  | (.missing, s1) =>
      ((.error "unable to read channel details from storage.", [.channelStore key]), s1)
  | (.found storageChannel, s1) =>
      match service.PaymentChannelFromBlockChain key s1 with
      | (.failed err, s2) =>
          ((.error ("channel error:" ++ err), [.channelStore key, .ledger key]), s2)
      | (.missing, s2) =>
          ((.error "unable to read channel details from blockchain.",
            [.channelStore key, .ledger key]), s2)
      | (.found blockchainChannel, s2) =>
          ((.ok (decide (Cmp storageChannel.Nonce blockchainChannel.Nonce = 0)),
            [.channelStore key, .ledger key]), s2)

/-- The method `GetChannelState` over collaborators with state: the result
`(reply, err)`, the reads performed, and the state after the call. -/
def Stateful.GetChannelState {σ : Type} (hp : Helpers) (service : StatefulService σ)
    (request : ChannelStateRequest) (s : σ) :
    (Except String ChannelStateReply × List Access) × σ :=
  let channelID := hp.bytesToBigInt request.ChannelId
  let signature := request.Signature
  match hp.getSignerAddressFromMessage (hp.bigIntToBytes channelID) signature with
  | .error _ => ((.error "incorrect signature", []), s)
  | .ok sender =>
      match service.PaymentChannel { ID := channelID } s with
      | (.failed err, s1) =>
          ((.error ("channel error:" ++ err), [.channelStore { ID := channelID }]), s1)
      | (.missing, s1) =>
          ((.error ("channel is not found, channelId: " ++ toString channelID),
            [.channelStore { ID := channelID }]), s1)
      | (.found channel, s1) =>
          if channel.Signer ≠ sender then
            ((.error "only channel signer can get latest channel state",
              [.channelStore { ID := channelID }]), s1)
          else
            let check :=
              Stateful.StorageNonceMatchesWithBlockchainNonce service { ID := channelID } s1
            let reads := Access.channelStore { ID := channelID } :: check.1.2
            match check.1.1 with
            | .ok false =>
                let paymentID := hp.PaymentID channel.ChannelID (channel.Nonce - 1)
                match service.paymentStorageGet paymentID check.2 with
                | (.failed err, s3) => ((.error err, reads ++ [.paymentStore paymentID]), s3)
                | (.missing, s3) =>
                    ((.error "channel has different nonce in local storage and blockchain",
                      reads ++ [.paymentStore paymentID]), s3)
                | (.found payment, s3) =>
                    ((.ok
                      { CurrentNonce := some (hp.bigIntToBytes channel.Nonce)
                        CurrentSignedAmount := some (hp.bigIntToBytes channel.AuthorizedAmount)
                        CurrentSignature := channel.Signature
                        OldNonceSignedAmount := some (hp.bigIntToBytes payment.Amount)
                        OldNonceSignature := payment.Signature },
                      reads ++ [.paymentStore paymentID]), s3)
            | _ => ((.ok (currentStateReply hp channel), reads), check.2)

/-- The state of the stores after one collaborator read made in the state `s`. -/
def Access.stateAfter {σ : Type} (service : StatefulService σ) : Access → σ → σ
  | .channelStore key, s => (service.PaymentChannel key s).2
  | .ledger key, s => (service.PaymentChannelFromBlockChain key s).2
  | .paymentStore paymentID, s => (service.paymentStorageGet paymentID s).2

/-- The state of the stores after a list of collaborator reads made one after
the other from the state `s`. -/
def StatefulService.replay {σ : Type} (service : StatefulService σ) (reads : List Access)
    (s : σ) : σ :=
  reads.foldl (fun state a => a.stateAfter service state) s

/-- The contents of the three backing stores, as key-value lists. -/
structure SampleStores where
  channels : List (Int × PaymentChannelData)
  ledger : List (Int × PaymentChannelData)
  payments : List (String × Payment)
  deriving DecidableEq, Repr

/-- The read of a key-value list. -/
def lookupIn {κ α : Type} [BEq κ] (entries : List (κ × α)) (key : κ) : Lookup α :=
  match entries.lookup key with
  | some value => .found value
  | none => .missing

/-- Collaborators that read the key-value lists of a `SampleStores` and leave
them as they are. -/
def sampleStatefulService : StatefulService SampleStores where
  PaymentChannel := fun key s => (lookupIn s.channels key.ID, s)
  PaymentChannelFromBlockChain := fun key s => (lookupIn s.ledger key.ID, s)
  paymentStorageGet := fun paymentID s => (lookupIn s.payments paymentID, s)

/-- Stores holding the sample channel with nonce 3, the ledger record with
nonce 2 and the sample payment under "7/2". -/
def sampleStores : SampleStores where
  channels := [(7, sampleChannel)]
  ledger := [(7, sampleLedgerChannel 2)]
  payments := [("7/2", samplePayment)]

/-- Stores holding the sample channel with nonce 3 and no ledger record. -/
def sampleStoresNoLedger : SampleStores where
  channels := [(7, sampleChannel)]
  ledger := []
  payments := [("7/2", samplePayment)]

/-- Stores holding the sample channel with nonce 3, the ledger record with
nonce 2 and no payment. -/
def sampleStoresNoPayment : SampleStores where
  channels := [(7, sampleChannel)]
  ledger := [(7, sampleLedgerChannel 2)]
  payments := []

/-- Collaborators whose state counts the calls served: the Channel Store
answers its first call with the sample channel and fails with "connection
lost" from then on; the ledger holds nonce 2 and the payment store is empty. -/
def flakyService : StatefulService Nat where
  PaymentChannel := fun key calls =>
    (if calls = 0 then (if key.ID = 7 then .found sampleChannel else .missing)
      else .failed "connection lost", calls + 1)
  PaymentChannelFromBlockChain := fun _ calls => (.found (sampleLedgerChannel 2), calls + 1)
  paymentStorageGet := fun _ calls => (.missing, calls + 1)

end Escrow

/-! # Encoding utilities (package blockchain)

`FormatHash` and `BytesToBase64` are exercised by `blockchain/utils_test.go`;
their bodies are not part of the sources at hand. -/

namespace Blockchain

/-- The scheme that `FormatHash` strips from the front of a hash. -/
def IpfsScheme : String := "ipfs://"

/-- The characters `FormatHash` keeps: ASCII letters, digits and the equals sign. -/
def hashCharKept (c : Char) : Bool :=
  c.isAlpha || c.isDigit || c == '='

/-- A character list without its leading "ipfs://", when it has one. -/
def withoutIpfsScheme (chars : List Char) : List Char :=
  if IpfsScheme.data.isPrefixOf chars then chars.drop IpfsScheme.length else chars

/-- Modelled from the spec: the body of `FormatHash` is missing from the
sources; it returns the input with the "ipfs://" prefix removed and every
character other than an ASCII letter, a digit or the equals sign removed, the
kept characters in their original order. -/
def FormatHash (ipfsHash : String) : String :=
  String.mk ((withoutIpfsScheme ipfsHash.data).filter hashCharKept)

/-- The base64 alphabet of RFC 4648, in the order of the values 0 to 63. -/
def base64Alphabet : List Char :=
  "ABCDEFGHIJKLMNOPQRSTUVWXYZabcdefghijklmnopqrstuvwxyz0123456789+/".data

/-- The character of a six-bit value. -/
def base64Char (sextet : Nat) : Char :=
  base64Alphabet.getD (sextet % 64) 'A'

/-- The base64 characters of a byte list, three bytes to four characters, the
last group padded with equals signs. -/
def base64Groups : List Nat → List Char
  | [] => []
  | [a] => [base64Char (a / 4), base64Char (a % 4 * 16), '=', '=']
  | [a, b] =>
      [base64Char (a / 4), base64Char (a % 4 * 16 + b / 16), base64Char (b % 16 * 4), '=']
  | a :: b :: c :: rest =>
      base64Char (a / 4) :: base64Char (a % 4 * 16 + b / 16) ::
        base64Char (b % 16 * 4 + c / 64) :: base64Char (c % 64) :: base64Groups rest

/-- Modelled from the spec: the body of `BytesToBase64` is missing from the
sources; it returns the standard base64 encoding (RFC 4648, alphabet with plus
and slash) of a byte sequence, with equals-sign padding. -/
def BytesToBase64 (bytes : List Nat) : String :=
  String.mk (base64Groups (bytes.map (· % 256)))

/-- The hash used by `TestFormatHash`. -/
def sampleHash : String := "QmaGnQ3iVZPuPwdam2rEeQcCSoCYRpxjnZhQ6Z2oeeRSrp"

/-- The sample hash followed by three NUL bytes, as built by `TestFormatHash`. -/
def sampleHashPadded : String :=
  String.mk (sampleHash.data ++ List.replicate 3 (Char.ofNat 0))

end Blockchain

namespace Escrow

/-- The result of `GetChannelState` after a failed signer recovery. -/
theorem getChannelState_of_recover_error (hp : Helpers) (service : PaymentChannelStateService)
    (request : ChannelStateRequest) (e : String)
    (hrec : recoveredSigner hp request = .error e) :
    GetChannelState hp service request = (.error "incorrect signature", []) := by
  unfold recoveredSigner at hrec
  simp only [GetChannelState, hrec]

/-- The result of `GetChannelState` when the Channel Store read fails. -/
theorem getChannelState_of_store_failed (hp : Helpers) (service : PaymentChannelStateService)
    (request : ChannelStateRequest) (sender : Address) (err : String)
    (hrec : recoveredSigner hp request = .ok sender)
    (hch : storedChannel hp service request = .failed err) :
    GetChannelState hp service request =
      (.error ("channel error:" ++ err), [.channelStore (requestKey hp request)]) := by
  unfold recoveredSigner at hrec
  unfold storedChannel requestKey at hch
  simp only [GetChannelState, hrec, hch, requestKey]

/-- The result of `GetChannelState` when the Channel Store has no channel under the key. -/
theorem getChannelState_of_store_missing (hp : Helpers) (service : PaymentChannelStateService)
    (request : ChannelStateRequest) (sender : Address)
    (hrec : recoveredSigner hp request = .ok sender)
    (hch : storedChannel hp service request = .missing) :
    GetChannelState hp service request =
      (.error ("channel is not found, channelId: " ++
          toString (hp.bytesToBigInt request.ChannelId)),
        [.channelStore (requestKey hp request)]) := by
  unfold recoveredSigner at hrec
  unfold storedChannel requestKey at hch
  simp only [GetChannelState, hrec, hch, requestKey]

/-- The result of `GetChannelState` when the recovered address is not the channel signer. -/
theorem getChannelState_of_signer_ne (hp : Helpers) (service : PaymentChannelStateService)
    (request : ChannelStateRequest) (sender : Address) (channel : PaymentChannelData)
    (hrec : recoveredSigner hp request = .ok sender)
    (hch : storedChannel hp service request = .found channel)
    (hne : sender ≠ channel.Signer) :
    GetChannelState hp service request =
      (.error "only channel signer can get latest channel state",
        [.channelStore (requestKey hp request)]) := by
  unfold recoveredSigner at hrec
  unfold storedChannel requestKey at hch
  have hne2 : channel.Signer ≠ sender := fun h => hne h.symm
  simp only [GetChannelState, hrec, hch, requestKey, hne2, ne_eq, not_false_eq_true, if_true]

/-- The result of `GetChannelState` for an authenticated and authorized request: the result
is decided by the nonce check and the fallback payment read. -/
theorem getChannelState_of_authorized (hp : Helpers) (service : PaymentChannelStateService)
    (request : ChannelStateRequest) (channel : PaymentChannelData)
    (hrec : recoveredSigner hp request = .ok channel.Signer)
    (hch : storedChannel hp service request = .found channel) :
    GetChannelState hp service request =
      (match (StorageNonceMatchesWithBlockchainNonce service (requestKey hp request)).1 with
        | .ok false =>
            match fallbackPayment hp service channel with
            | .failed err =>
                (.error err,
                  (Access.channelStore (requestKey hp request) ::
                    (StorageNonceMatchesWithBlockchainNonce service (requestKey hp request)).2) ++
                    [.paymentStore (hp.PaymentID channel.ChannelID (channel.Nonce - 1))])
            | .missing =>
                (.error "channel has different nonce in local storage and blockchain",
                  (Access.channelStore (requestKey hp request) ::
                    (StorageNonceMatchesWithBlockchainNonce service (requestKey hp request)).2) ++
                    [.paymentStore (hp.PaymentID channel.ChannelID (channel.Nonce - 1))])
            | .found payment =>
                (.ok
                  { CurrentNonce := some (hp.bigIntToBytes channel.Nonce)
                    CurrentSignedAmount := some (hp.bigIntToBytes channel.AuthorizedAmount)
                    CurrentSignature := channel.Signature
                    OldNonceSignedAmount := some (hp.bigIntToBytes payment.Amount)
                    OldNonceSignature := payment.Signature },
                  (Access.channelStore (requestKey hp request) ::
                    (StorageNonceMatchesWithBlockchainNonce service (requestKey hp request)).2) ++
                    [.paymentStore (hp.PaymentID channel.ChannelID (channel.Nonce - 1))])
        | _ =>
            (.ok (currentStateReply hp channel),
              Access.channelStore (requestKey hp request) ::
                (StorageNonceMatchesWithBlockchainNonce service (requestKey hp request)).2)) := by
  unfold recoveredSigner at hrec
  unfold storedChannel requestKey at hch
  simp only [GetChannelState, hrec, hch, requestKey, fallbackPayment, ne_eq, not_true_eq_false,
    if_false]

/-- The comparison `Cmp` is zero exactly on equal integers. -/
theorem cmp_eq_zero_iff (x y : Int) : Cmp x y = 0 ↔ x = y := by
  unfold Cmp
  by_cases hlt : x < y
  · have hne : x ≠ y := fun h => by omega
    simp [hlt, hne]
  · by_cases heq : x = y
    · simp [heq]
    · simp [hlt, heq]

/-- The nonce check when both reads return a channel. -/
theorem storageNonce_of_found (service : PaymentChannelStateService) (key : PaymentChannelKey)
    (storageChannel blockchainChannel : PaymentChannelData)
    (hs : service.channelService.PaymentChannel key = .found storageChannel)
    (hb : service.channelService.PaymentChannelFromBlockChain key = .found blockchainChannel) :
    StorageNonceMatchesWithBlockchainNonce service key =
      (.ok (decide (storageChannel.Nonce = blockchainChannel.Nonce)),
        [.channelStore key, .ledger key]) := by
  simp only [StorageNonceMatchesWithBlockchainNonce, hs, hb, cmp_eq_zero_iff]

/-- The nonce check when the Channel Store read fails: the store error is
returned as it is. -/
theorem storageNonce_of_store_failed (service : PaymentChannelStateService)
    (key : PaymentChannelKey) (err : String)
    (hs : service.channelService.PaymentChannel key = .failed err) :
    StorageNonceMatchesWithBlockchainNonce service key = (.error err, [.channelStore key]) := by
  simp only [StorageNonceMatchesWithBlockchainNonce, hs]

/-- The nonce check when the Channel Store has no channel under the key. -/
theorem storageNonce_of_store_missing (service : PaymentChannelStateService)
    (key : PaymentChannelKey)
    (hs : service.channelService.PaymentChannel key = .missing) :
    StorageNonceMatchesWithBlockchainNonce service key =
      (.error "unable to read channel details from storage.", [.channelStore key]) := by
  simp only [StorageNonceMatchesWithBlockchainNonce, hs]

/-- The nonce check when the ledger read fails. -/
theorem storageNonce_of_ledger_failed (service : PaymentChannelStateService)
    (key : PaymentChannelKey) (storageChannel : PaymentChannelData) (err : String)
    (hs : service.channelService.PaymentChannel key = .found storageChannel)
    (hb : service.channelService.PaymentChannelFromBlockChain key = .failed err) :
    StorageNonceMatchesWithBlockchainNonce service key =
      (.error ("channel error:" ++ err), [.channelStore key, .ledger key]) := by
  simp only [StorageNonceMatchesWithBlockchainNonce, hs, hb]

/-- The nonce check when the ledger has no channel under the key. -/
theorem storageNonce_of_ledger_missing (service : PaymentChannelStateService)
    (key : PaymentChannelKey) (storageChannel : PaymentChannelData)
    (hs : service.channelService.PaymentChannel key = .found storageChannel)
    (hb : service.channelService.PaymentChannelFromBlockChain key = .missing) :
    StorageNonceMatchesWithBlockchainNonce service key =
      (.error "unable to read channel details from blockchain.",
        [.channelStore key, .ledger key]) := by
  simp only [StorageNonceMatchesWithBlockchainNonce, hs, hb]

/-- The result of `GetChannelState` for an authorized request whose nonces are equal. -/
theorem getChannelState_of_nonce_eq (hp : Helpers) (service : PaymentChannelStateService)
    (request : ChannelStateRequest) (channel blockchainChannel : PaymentChannelData)
    (hrec : recoveredSigner hp request = .ok channel.Signer)
    (hch : storedChannel hp service request = .found channel)
    (hbc : ledgerChannel hp service request = .found blockchainChannel)
    (heq : channel.Nonce = blockchainChannel.Nonce) :
    GetChannelState hp service request =
      (.ok (currentStateReply hp channel),
        [.channelStore (requestKey hp request), .channelStore (requestKey hp request),
          .ledger (requestKey hp request)]) := by
  rw [getChannelState_of_authorized hp service request channel hrec hch,
    storageNonce_of_found service (requestKey hp request) channel blockchainChannel hch hbc]
  simp [heq]

/-- The result of `GetChannelState` for an authorized request whose nonces differ. -/
theorem getChannelState_of_nonce_ne (hp : Helpers) (service : PaymentChannelStateService)
    (request : ChannelStateRequest) (channel blockchainChannel : PaymentChannelData)
    (hrec : recoveredSigner hp request = .ok channel.Signer)
    (hch : storedChannel hp service request = .found channel)
    (hbc : ledgerChannel hp service request = .found blockchainChannel)
    (hne : channel.Nonce ≠ blockchainChannel.Nonce) :
    GetChannelState hp service request =
      (match fallbackPayment hp service channel with
        | .failed err => .error err
        | .missing => .error "channel has different nonce in local storage and blockchain"
        | .found payment =>
            .ok
              { CurrentNonce := some (hp.bigIntToBytes channel.Nonce)
                CurrentSignedAmount := some (hp.bigIntToBytes channel.AuthorizedAmount)
                CurrentSignature := channel.Signature
                OldNonceSignedAmount := some (hp.bigIntToBytes payment.Amount)
                OldNonceSignature := payment.Signature },
        [.channelStore (requestKey hp request), .channelStore (requestKey hp request),
          .ledger (requestKey hp request),
          .paymentStore (hp.PaymentID channel.ChannelID (channel.Nonce - 1))]) := by
  rw [getChannelState_of_authorized hp service request channel hrec hch,
    storageNonce_of_found service (requestKey hp request) channel blockchainChannel hch hbc]
  simp only [hne, decide_False]
  cases fallbackPayment hp service channel <;> rfl

/-- The result of `GetChannelState` for an authorized request when the ledger read did not
return a channel. -/
theorem getChannelState_of_ledger_unavailable (hp : Helpers)
    (service : PaymentChannelStateService) (request : ChannelStateRequest)
    (channel : PaymentChannelData)
    (hrec : recoveredSigner hp request = .ok channel.Signer)
    (hch : storedChannel hp service request = .found channel)
    (hbc : (∃ err, ledgerChannel hp service request = .failed err) ∨
      ledgerChannel hp service request = .missing) :
    GetChannelState hp service request =
      (.ok (currentStateReply hp channel),
        [.channelStore (requestKey hp request), .channelStore (requestKey hp request),
          .ledger (requestKey hp request)]) := by
  rw [getChannelState_of_authorized hp service request channel hrec hch]
  rcases hbc with ⟨err, hbc⟩ | hbc
  · rw [storageNonce_of_ledger_failed service (requestKey hp request) channel err hch hbc]
  · rw [storageNonce_of_ledger_missing service (requestKey hp request) channel hch hbc]

/-- C1: when the signature recovers to an address and the Channel Store returns
the channel, a recovered address different from the channel's Signer makes
`GetChannelState` fail with "only channel signer can get latest channel state",
for every local nonce, ledger and payment store; only the Channel Store is read. -/
theorem getChannelState_unauthorized (hp : Helpers) (service : PaymentChannelStateService)
    (request : ChannelStateRequest) (sender : Address) (channel : PaymentChannelData)
    (hrec : recoveredSigner hp request = .ok sender)
    (hch : storedChannel hp service request = .found channel)
    (hne : sender ≠ channel.Signer) :
    (GetChannelState hp service request).1 =
        .error "only channel signer can get latest channel state" ∧
      (GetChannelState hp service request).2 = [.channelStore (requestKey hp request)] := by
  rw [getChannelState_of_signer_ne hp service request sender channel hrec hch hne]
  exact ⟨rfl, rfl⟩

/-- Witness of C1: a request for channel 7 signed by address 11, the channel's
signer being 10. -/
theorem getChannelState_unauthorized_witness :
    (GetChannelState sampleHelpers
        (sampleService (.found sampleChannel) (.found sampleChannel) .missing)
        (sampleRequest 11)).1 =
        .error "only channel signer can get latest channel state" ∧
      (GetChannelState sampleHelpers
        (sampleService (.found sampleChannel) (.found sampleChannel) .missing)
        (sampleRequest 11)).2 = [.channelStore { ID := 7 }] :=
  getChannelState_unauthorized sampleHelpers
    (sampleService (.found sampleChannel) (.found sampleChannel) .missing)
    (sampleRequest 11) 11 sampleChannel rfl rfl (by decide)

/-- C2: `GetChannelState` returns a reply only when signer recovery succeeded
with the Signer of the channel stored under the requested id; and for a
requester that is not that signer the outcome is an error, the same for any
two services whose stored channels have that signer, whatever their Nonce,
AuthorizedAmount and Signature, their ledger and their payment store. -/
theorem getChannelState_only_signer (hp : Helpers) (service other : PaymentChannelStateService)
    (request : ChannelStateRequest) :
    (∀ reply, (GetChannelState hp service request).1 = .ok reply →
        ∃ channel, storedChannel hp service request = .found channel ∧
          recoveredSigner hp request = .ok channel.Signer) ∧
      (∀ sender channel channel2, recoveredSigner hp request = .ok sender →
        storedChannel hp service request = .found channel →
        storedChannel hp other request = .found channel2 →
        channel2.Signer = channel.Signer → sender ≠ channel.Signer →
        (∃ e, (GetChannelState hp service request).1 = .error e) ∧
          GetChannelState hp other request = GetChannelState hp service request) := by
  constructor
  · intro reply hreply
    cases hrec : recoveredSigner hp request with
    | error e =>
        rw [getChannelState_of_recover_error hp service request e hrec] at hreply
        cases hreply
    | ok sender =>
        cases hch : storedChannel hp service request with
        | failed err =>
            rw [getChannelState_of_store_failed hp service request sender err hrec hch] at hreply
            cases hreply
        | missing =>
            rw [getChannelState_of_store_missing hp service request sender hrec hch] at hreply
            cases hreply
        | found channel =>
            by_cases hs : sender = channel.Signer
            · exact ⟨channel, rfl, by rw [hs]⟩
            · rw [getChannelState_of_signer_ne hp service request sender channel hrec hch hs]
                at hreply
              cases hreply
  · intro sender channel channel2 hrec hch hch2 hsig hne
    have hne2 : sender ≠ channel2.Signer := by rw [hsig]; exact hne
    rw [getChannelState_of_signer_ne hp service request sender channel hrec hch hne,
      getChannelState_of_signer_ne hp other request sender channel2 hrec hch2 hne2]
    exact ⟨⟨_, rfl⟩, rfl⟩

/-- Witness of C2: the reply to the signer 10 of channel 7, and the error given
to address 11 on two services that differ in nonce, amount, signature, ledger
and payment store. -/
theorem getChannelState_only_signer_witness :
    (∃ channel,
        storedChannel sampleHelpers
            (sampleService (.found sampleChannel) (.found sampleChannel) .missing)
            (sampleRequest 10) = .found channel ∧
          recoveredSigner sampleHelpers (sampleRequest 10) = .ok channel.Signer) ∧
      ((∃ e, (GetChannelState sampleHelpers
            (sampleService (.found sampleChannel) (.found sampleChannel) .missing)
            (sampleRequest 11)).1 = .error e) ∧
        GetChannelState sampleHelpers
            (sampleService (.found sampleChannelUnsigned) (.failed "down") (.failed "down"))
            (sampleRequest 11) =
          GetChannelState sampleHelpers
            (sampleService (.found sampleChannel) (.found sampleChannel) .missing)
            (sampleRequest 11)) :=
  ⟨(getChannelState_only_signer sampleHelpers
      (sampleService (.found sampleChannel) (.found sampleChannel) .missing)
      (sampleService (.found sampleChannel) (.found sampleChannel) .missing)
      (sampleRequest 10)).1 _ rfl,
    (getChannelState_only_signer sampleHelpers
      (sampleService (.found sampleChannel) (.found sampleChannel) .missing)
      (sampleService (.found sampleChannelUnsigned) (.failed "down") (.failed "down"))
      (sampleRequest 11)).2 11 sampleChannel _ rfl rfl rfl rfl (by decide)⟩

/-- C3: when signer recovery over the byte encoding of the channel id and the
signature fails, `GetChannelState` fails with "incorrect signature" and reads
no collaborator, so the outcome is the same for every service, that is for all
contents of the Channel Store, the ledger and the Payment Store. -/
theorem getChannelState_authentication_failed (hp : Helpers)
    (service other : PaymentChannelStateService) (request : ChannelStateRequest) (e : String)
    (hrec : recoveredSigner hp request = .error e) :
    (GetChannelState hp service request).1 = .error "incorrect signature" ∧
      (GetChannelState hp service request).2 = [] ∧
      GetChannelState hp other request = GetChannelState hp service request := by
  rw [getChannelState_of_recover_error hp service request e hrec,
    getChannelState_of_recover_error hp other request e hrec]
  exact ⟨rfl, rfl, rfl⟩

/-- Witness of C3: a two-byte signature is rejected by the sample recovery. -/
theorem getChannelState_authentication_failed_witness :
    (GetChannelState sampleHelpers
        (sampleService (.found sampleChannel) (.found sampleChannel) .missing)
        { ChannelId := [7], Signature := [1, 2] }).1 = .error "incorrect signature" ∧
      (GetChannelState sampleHelpers
        (sampleService (.found sampleChannel) (.found sampleChannel) .missing)
        { ChannelId := [7], Signature := [1, 2] }).2 = [] ∧
      GetChannelState sampleHelpers (sampleService .missing (.failed "down") (.failed "down"))
          { ChannelId := [7], Signature := [1, 2] } =
        GetChannelState sampleHelpers
          (sampleService (.found sampleChannel) (.found sampleChannel) .missing)
          { ChannelId := [7], Signature := [1, 2] } :=
  getChannelState_authentication_failed sampleHelpers
    (sampleService (.found sampleChannel) (.found sampleChannel) .missing)
    (sampleService .missing (.failed "down") (.failed "down"))
    { ChannelId := [7], Signature := [1, 2] } "invalid signature length" rfl

/-! ## Reconciliation -/

/-- C4: for an authenticated and authorized request on a channel whose local
nonce equals the ledger nonce (both reads succeed), `GetChannelState` returns a
reply whose CurrentNonce is the byte encoding of that common nonce, whose
old-nonce fields are absent, and whose CurrentSignedAmount and CurrentSignature
are the channel's AuthorizedAmount and Signature when a signature is recorded. -/
theorem getChannelState_nonce_match (hp : Helpers) (service : PaymentChannelStateService)
    (request : ChannelStateRequest) (channel blockchainChannel : PaymentChannelData)
    (hrec : recoveredSigner hp request = .ok channel.Signer)
    (hch : storedChannel hp service request = .found channel)
    (hbc : ledgerChannel hp service request = .found blockchainChannel)
    (heq : channel.Nonce = blockchainChannel.Nonce) :
    ∃ reply, (GetChannelState hp service request).1 = .ok reply ∧
      reply.CurrentNonce = some (hp.bigIntToBytes channel.Nonce) ∧
      reply.CurrentNonce = some (hp.bigIntToBytes blockchainChannel.Nonce) ∧
      reply.OldNonceSignedAmount = none ∧ reply.OldNonceSignature = none ∧
      ∀ sig, channel.Signature = some sig →
        reply.CurrentSignedAmount = some (hp.bigIntToBytes channel.AuthorizedAmount) ∧
          reply.CurrentSignature = some sig := by
  refine ⟨currentStateReply hp channel, ?_, ?_, ?_, ?_, ?_, ?_⟩
  · rw [getChannelState_of_nonce_eq hp service request channel blockchainChannel hrec hch hbc heq]
  · unfold currentStateReply; cases channel.Signature <;> rfl
  · rw [← heq]; unfold currentStateReply; cases channel.Signature <;> rfl
  · unfold currentStateReply; cases channel.Signature <;> rfl
  · unfold currentStateReply; cases channel.Signature <;> rfl
  · intro sig hsig
    unfold currentStateReply
    rw [hsig]
    exact ⟨rfl, rfl⟩

/-- Witness of C4: channel 7 with nonce 3, amount 100 and a signature, ledger
nonce 3. -/
theorem getChannelState_nonce_match_witness :
    ∃ reply, (GetChannelState sampleHelpers
        (sampleService (.found sampleChannel) (.found (sampleLedgerChannel 3)) .missing)
        (sampleRequest 10)).1 = .ok reply ∧
      reply.CurrentNonce = some (sampleHelpers.bigIntToBytes sampleChannel.Nonce) ∧
      reply.CurrentNonce = some (sampleHelpers.bigIntToBytes (sampleLedgerChannel 3).Nonce) ∧
      reply.OldNonceSignedAmount = none ∧ reply.OldNonceSignature = none ∧
      ∀ sig, sampleChannel.Signature = some sig →
        reply.CurrentSignedAmount =
            some (sampleHelpers.bigIntToBytes sampleChannel.AuthorizedAmount) ∧
          reply.CurrentSignature = some sig :=
  getChannelState_nonce_match sampleHelpers
    (sampleService (.found sampleChannel) (.found (sampleLedgerChannel 3)) .missing)
    (sampleRequest 10) sampleChannel (sampleLedgerChannel 3) rfl rfl rfl rfl

/-- The example of C4 evaluated: nonce 3, amount 100, signature [120], ledger
nonce 3 give the reply with these three fields, as 32-byte big-endian values. -/
theorem getChannelState_nonce_match_example :
    (GetChannelState sampleHelpers
        (sampleService (.found sampleChannel) (.found (sampleLedgerChannel 3)) .missing)
        (sampleRequest 10)).1 =
      .ok { CurrentNonce := some (List.replicate 31 0 ++ [3])
            CurrentSignedAmount := some (List.replicate 31 0 ++ [100])
            CurrentSignature := some [120] } := by
  rfl

/-- C5: for an authenticated and authorized request on a channel whose local
nonce is the ledger nonce plus one, with a payment stored under
`PaymentID(channel.ChannelID, channel.Nonce - 1)`, `GetChannelState` returns the
reply whose current fields come from the channel record and whose old-nonce
fields are that payment's Amount and Signature. -/
theorem getChannelState_dual_state (hp : Helpers) (service : PaymentChannelStateService)
    (request : ChannelStateRequest) (channel blockchainChannel : PaymentChannelData)
    (payment : Payment)
    (hrec : recoveredSigner hp request = .ok channel.Signer)
    (hch : storedChannel hp service request = .found channel)
    (hbc : ledgerChannel hp service request = .found blockchainChannel)
    (hnonce : channel.Nonce = blockchainChannel.Nonce + 1)
    (hpay : fallbackPayment hp service channel = .found payment) :
    (GetChannelState hp service request).1 =
      .ok { CurrentNonce := some (hp.bigIntToBytes channel.Nonce)
            CurrentSignedAmount := some (hp.bigIntToBytes channel.AuthorizedAmount)
            CurrentSignature := channel.Signature
            OldNonceSignedAmount := some (hp.bigIntToBytes payment.Amount)
            OldNonceSignature := payment.Signature } := by
  have hne : channel.Nonce ≠ blockchainChannel.Nonce := by omega
  rw [getChannelState_of_nonce_ne hp service request channel blockchainChannel hrec hch hbc hne,
    hpay]

/-- Witness of C5: local nonce 3, ledger nonce 2, payment of amount 80 stored
under "7/2". -/
theorem getChannelState_dual_state_witness :
    (GetChannelState sampleHelpers
        (sampleService (.found sampleChannel) (.found (sampleLedgerChannel 2))
          (.found samplePayment))
        (sampleRequest 10)).1 =
      .ok { CurrentNonce := some (sampleHelpers.bigIntToBytes sampleChannel.Nonce)
            CurrentSignedAmount := some (sampleHelpers.bigIntToBytes sampleChannel.AuthorizedAmount)
            CurrentSignature := sampleChannel.Signature
            OldNonceSignedAmount := some (sampleHelpers.bigIntToBytes samplePayment.Amount)
            OldNonceSignature := samplePayment.Signature } :=
  getChannelState_dual_state sampleHelpers
    (sampleService (.found sampleChannel) (.found (sampleLedgerChannel 2))
      (.found samplePayment))
    (sampleRequest 10) sampleChannel (sampleLedgerChannel 2) samplePayment rfl rfl rfl
    (by decide) rfl

/-- The example of C5 evaluated: the old-nonce fields are 80 and [121]. -/
theorem getChannelState_dual_state_example :
    (GetChannelState sampleHelpers
        (sampleService (.found sampleChannel) (.found (sampleLedgerChannel 2))
          (.found samplePayment))
        (sampleRequest 10)).1 =
      .ok { CurrentNonce := some (List.replicate 31 0 ++ [3])
            CurrentSignedAmount := some (List.replicate 31 0 ++ [100])
            CurrentSignature := some [120]
            OldNonceSignedAmount := some (List.replicate 31 0 ++ [80])
            OldNonceSignature := some [121] } := by
  rfl

/-- C6: for an authenticated and authorized request on a channel whose local
nonce differs from the ledger nonce (both reads succeed), when the Payment
Store has no payment under `PaymentID(channel.ChannelID, channel.Nonce - 1)`,
`GetChannelState` fails with "channel has different nonce in local storage and
blockchain" and returns no reply. -/
theorem getChannelState_inconsistent_state (hp : Helpers)
    (service : PaymentChannelStateService) (request : ChannelStateRequest)
    (channel blockchainChannel : PaymentChannelData)
    (hrec : recoveredSigner hp request = .ok channel.Signer)
    (hch : storedChannel hp service request = .found channel)
    (hbc : ledgerChannel hp service request = .found blockchainChannel)
    (hne : channel.Nonce ≠ blockchainChannel.Nonce)
    (hpay : fallbackPayment hp service channel = .missing) :
    (GetChannelState hp service request).1 =
        .error "channel has different nonce in local storage and blockchain" ∧
      ∀ reply, (GetChannelState hp service request).1 ≠ .ok reply := by
  rw [getChannelState_of_nonce_ne hp service request channel blockchainChannel hrec hch hbc hne,
    hpay]
  exact ⟨rfl, fun reply h => by cases h⟩

/-- Witness of C6: local nonce 3, ledger nonce 2, no payment under "7/2". -/
theorem getChannelState_inconsistent_state_witness :
    (GetChannelState sampleHelpers
        (sampleService (.found sampleChannel) (.found (sampleLedgerChannel 2)) .missing)
        (sampleRequest 10)).1 =
        .error "channel has different nonce in local storage and blockchain" ∧
      ∀ reply, (GetChannelState sampleHelpers
        (sampleService (.found sampleChannel) (.found (sampleLedgerChannel 2)) .missing)
        (sampleRequest 10)).1 ≠ .ok reply :=
  getChannelState_inconsistent_state sampleHelpers
    (sampleService (.found sampleChannel) (.found (sampleLedgerChannel 2)) .missing)
    (sampleRequest 10) sampleChannel (sampleLedgerChannel 2) rfl rfl rfl (by decide) rfl

/-! ## The nonce check -/

/-- C8: when the Channel Store and the Ledger Reader both return a channel,
`StorageNonceMatchesWithBlockchainNonce` returns no error, and returns true
exactly when the two nonces are equal integers. -/
theorem storageNonce_true_iff_equal (service : PaymentChannelStateService)
    (key : PaymentChannelKey) (storageChannel blockchainChannel : PaymentChannelData)
    (hs : service.channelService.PaymentChannel key = .found storageChannel)
    (hb : service.channelService.PaymentChannelFromBlockChain key = .found blockchainChannel) :
    ∃ equal, (StorageNonceMatchesWithBlockchainNonce service key).1 = .ok equal ∧
      (equal = true ↔ storageChannel.Nonce = blockchainChannel.Nonce) := by
  refine ⟨decide (storageChannel.Nonce = blockchainChannel.Nonce), ?_, ?_⟩
  · rw [storageNonce_of_found service key storageChannel blockchainChannel hs hb]
  · simp

/-- Witness of C8: nonce 3 in the store against nonce 2 on the ledger. -/
theorem storageNonce_true_iff_equal_witness :
    ∃ equal, (StorageNonceMatchesWithBlockchainNonce
        (sampleService (.found sampleChannel) (.found (sampleLedgerChannel 2)) .missing)
        { ID := 7 }).1 = .ok equal ∧
      (equal = true ↔ sampleChannel.Nonce = (sampleLedgerChannel 2).Nonce) :=
  storageNonce_true_iff_equal
    (sampleService (.found sampleChannel) (.found (sampleLedgerChannel 2)) .missing)
    { ID := 7 } sampleChannel (sampleLedgerChannel 2) rfl rfl

/-- The nonce check compares by value beyond the machine word: two ledger and
store records with nonce 2^70 match, and 2^70 against 2^70 + 2^64 does not. -/
theorem storageNonce_large_example :
    (StorageNonceMatchesWithBlockchainNonce
        (sampleService (.found (sampleLedgerChannel 1180591620717411303424))
          (.found (sampleLedgerChannel 1180591620717411303424)) .missing)
        { ID := 7 }).1 = .ok true ∧
      (StorageNonceMatchesWithBlockchainNonce
        (sampleService (.found (sampleLedgerChannel 1180591620717411303424))
          (.found (sampleLedgerChannel 1199038364791120855040)) .missing)
        { ID := 7 }).1 = .ok false := by
  constructor <;> rfl

/-- The message for a channel absent from the store differs from every message
built for a failed ledger read. -/
theorem storage_missing_ne_ledger_failed (err : String) :
    "unable to read channel details from storage." ≠ "channel error:" ++ err := by
  intro h
  have h2 := congrArg (fun s => s.data.head?) h
  simp [String.data_append] at h2

/-- Counterexample to C9 as stated: a Channel Store read failing with the
message "channel error:timeout" and a Ledger Reader read failing with the
message "timeout" make `StorageNonceMatchesWithBlockchainNonce` return the same
error, so a storage failure and a ledger failure are not told apart. -/
theorem storageNonce_failures_coincide :
    (sampleService (.failed "channel error:timeout") (.found sampleChannel)
        .missing).channelService.PaymentChannel { ID := 7 } =
        .failed "channel error:timeout" ∧
      (sampleService (.found sampleChannel) (.failed "timeout")
        .missing).channelService.PaymentChannel { ID := 7 } = .found sampleChannel ∧
      (sampleService (.found sampleChannel) (.failed "timeout")
        .missing).channelService.PaymentChannelFromBlockChain { ID := 7 } = .failed "timeout" ∧
      (StorageNonceMatchesWithBlockchainNonce
        (sampleService (.failed "channel error:timeout") (.found sampleChannel) .missing)
        { ID := 7 }).1 = .error "channel error:timeout" ∧
      (StorageNonceMatchesWithBlockchainNonce
        (sampleService (.found sampleChannel) (.failed "timeout") .missing)
        { ID := 7 }).1 = .error "channel error:timeout" := by
  refine ⟨rfl, rfl, rfl, rfl, rfl⟩

/-- C9, amended: `StorageNonceMatchesWithBlockchainNonce` fails in each of the
four cases: a Channel Store read error is returned unchanged, a channel absent
from the store gives "unable to read channel details from storage.", a Ledger
Reader read error gives "channel error:" followed by the ledger's message, and
a channel absent from the ledger gives "unable to read channel details from
blockchain."; the error for a channel absent from the store differs from the
error of every ledger failure. -/
theorem storageNonce_failures (service other : PaymentChannelStateService)
    (key key2 : PaymentChannelKey) :
    (∀ err, service.channelService.PaymentChannel key = .failed err →
        (StorageNonceMatchesWithBlockchainNonce service key).1 = .error err) ∧
      (service.channelService.PaymentChannel key = .missing →
        (StorageNonceMatchesWithBlockchainNonce service key).1 =
          .error "unable to read channel details from storage.") ∧
      (∀ storageChannel err, service.channelService.PaymentChannel key = .found storageChannel →
        service.channelService.PaymentChannelFromBlockChain key = .failed err →
        (StorageNonceMatchesWithBlockchainNonce service key).1 =
          .error ("channel error:" ++ err)) ∧
      (∀ storageChannel, service.channelService.PaymentChannel key = .found storageChannel →
        service.channelService.PaymentChannelFromBlockChain key = .missing →
        (StorageNonceMatchesWithBlockchainNonce service key).1 =
          .error "unable to read channel details from blockchain.") ∧
      (∀ storageChannel, service.channelService.PaymentChannel key = .missing →
        other.channelService.PaymentChannel key2 = .found storageChannel →
        ((∃ err, other.channelService.PaymentChannelFromBlockChain key2 = .failed err) ∨
          other.channelService.PaymentChannelFromBlockChain key2 = .missing) →
        (StorageNonceMatchesWithBlockchainNonce service key).1 ≠
          (StorageNonceMatchesWithBlockchainNonce other key2).1) := by
  refine ⟨?_, ?_, ?_, ?_, ?_⟩
  · intro err hs
    rw [storageNonce_of_store_failed service key err hs]
  · intro hs
    rw [storageNonce_of_store_missing service key hs]
  · intro storageChannel err hs hb
    rw [storageNonce_of_ledger_failed service key storageChannel err hs hb]
  · intro storageChannel hs hb
    rw [storageNonce_of_ledger_missing service key storageChannel hs hb]
  · rintro storageChannel hs hs2 (⟨err, hb⟩ | hb)
    · rw [storageNonce_of_store_missing service key hs,
        storageNonce_of_ledger_failed other key2 storageChannel err hs2 hb]
      intro h
      exact storage_missing_ne_ledger_failed err (Except.error.inj h)
    · rw [storageNonce_of_store_missing service key hs,
        storageNonce_of_ledger_missing other key2 storageChannel hs2 hb]
      intro h
      exact absurd (Except.error.inj h) (by decide)

/-- Witness of C9, amended: the four failures on the sample services. -/
theorem storageNonce_failures_witness :
    (StorageNonceMatchesWithBlockchainNonce
        (sampleService (.failed "down") (.found sampleChannel) .missing)
        { ID := 7 }).1 = .error "down" ∧
      (StorageNonceMatchesWithBlockchainNonce
        (sampleService .missing (.found sampleChannel) .missing)
        { ID := 7 }).1 = .error "unable to read channel details from storage." ∧
      (StorageNonceMatchesWithBlockchainNonce
        (sampleService (.found sampleChannel) (.failed "down") .missing)
        { ID := 7 }).1 = .error ("channel error:" ++ "down") ∧
      (StorageNonceMatchesWithBlockchainNonce
        (sampleService (.found sampleChannel) .missing .missing)
        { ID := 7 }).1 = .error "unable to read channel details from blockchain." ∧
      (StorageNonceMatchesWithBlockchainNonce
        (sampleService .missing (.found sampleChannel) .missing)
        { ID := 7 }).1 ≠
      (StorageNonceMatchesWithBlockchainNonce
        (sampleService (.found sampleChannel) (.failed "down") .missing)
        { ID := 7 }).1 :=
  ⟨(storageNonce_failures (sampleService (.failed "down") (.found sampleChannel) .missing)
      (sampleService (.failed "down") (.found sampleChannel) .missing)
      { ID := 7 } { ID := 7 }).1 "down" rfl,
    (storageNonce_failures (sampleService .missing (.found sampleChannel) .missing)
      (sampleService .missing (.found sampleChannel) .missing)
      { ID := 7 } { ID := 7 }).2.1 rfl,
    (storageNonce_failures (sampleService (.found sampleChannel) (.failed "down") .missing)
      (sampleService (.found sampleChannel) (.failed "down") .missing)
      { ID := 7 } { ID := 7 }).2.2.1 sampleChannel "down" rfl rfl,
    (storageNonce_failures (sampleService (.found sampleChannel) .missing .missing)
      (sampleService (.found sampleChannel) .missing .missing)
      { ID := 7 } { ID := 7 }).2.2.2.1 sampleChannel rfl rfl,
    (storageNonce_failures (sampleService .missing (.found sampleChannel) .missing)
      (sampleService (.found sampleChannel) (.failed "down") .missing)
      { ID := 7 } { ID := 7 }).2.2.2.2 sampleChannel rfl rfl (Or.inl ⟨"down", rfl⟩)⟩

/-! ## Channel resolution -/

/-- C10: for a request whose signature recovers to an address, whatever that
address is: a Channel Store read error makes `GetChannelState` fail with
"channel error:" followed by the store's message, and a channel absent from
the store makes it fail with "channel is not found, channelId: " followed by
the requested id; in both cases the Channel Store read is the only read. -/
theorem getChannelState_channel_resolution (hp : Helpers)
    (service : PaymentChannelStateService) (request : ChannelStateRequest) (sender : Address)
    (hrec : recoveredSigner hp request = .ok sender) :
    (∀ err, storedChannel hp service request = .failed err →
        (GetChannelState hp service request).1 = .error ("channel error:" ++ err) ∧
          (GetChannelState hp service request).2 = [.channelStore (requestKey hp request)]) ∧
      (storedChannel hp service request = .missing →
        (GetChannelState hp service request).1 =
            .error ("channel is not found, channelId: " ++
              toString (hp.bytesToBigInt request.ChannelId)) ∧
          (GetChannelState hp service request).2 = [.channelStore (requestKey hp request)]) := by
  constructor
  · intro err hch
    rw [getChannelState_of_store_failed hp service request sender err hrec hch]
    exact ⟨rfl, rfl⟩
  · intro hch
    rw [getChannelState_of_store_missing hp service request sender hrec hch]
    exact ⟨rfl, rfl⟩

/-- Witness of C10: the store of channel 7 failing with "down", and the store
holding no channel 7. -/
theorem getChannelState_channel_resolution_witness :
    ((GetChannelState sampleHelpers
          (sampleService (.failed "down") (.found sampleChannel) (.found samplePayment))
          (sampleRequest 10)).1 = .error ("channel error:" ++ "down") ∧
        (GetChannelState sampleHelpers
          (sampleService (.failed "down") (.found sampleChannel) (.found samplePayment))
          (sampleRequest 10)).2 = [.channelStore (requestKey sampleHelpers (sampleRequest 10))]) ∧
      ((GetChannelState sampleHelpers
          (sampleService .missing (.found sampleChannel) (.found samplePayment))
          (sampleRequest 10)).1 =
          .error ("channel is not found, channelId: " ++
            toString (sampleHelpers.bytesToBigInt (sampleRequest 10).ChannelId)) ∧
        (GetChannelState sampleHelpers
          (sampleService .missing (.found sampleChannel) (.found samplePayment))
          (sampleRequest 10)).2 = [.channelStore (requestKey sampleHelpers (sampleRequest 10))]) :=
  ⟨(getChannelState_channel_resolution sampleHelpers
      (sampleService (.failed "down") (.found sampleChannel) (.found samplePayment))
      (sampleRequest 10) 10 rfl).1 "down" rfl,
    (getChannelState_channel_resolution sampleHelpers
      (sampleService .missing (.found sampleChannel) (.found samplePayment))
      (sampleRequest 10) 10 rfl).2 rfl⟩

/-- The absent-channel message of C10 evaluated for channel 7. -/
theorem getChannelState_channel_missing_example :
    (GetChannelState sampleHelpers
        (sampleService .missing (.found sampleChannel) (.found samplePayment))
        (sampleRequest 10)).1 = .error "channel is not found, channelId: 7" := by
  rfl

/-! ## The fallback payment and the single-state reply -/

/-- C11: for an authenticated and authorized request on a channel whose local
and ledger nonces differ, a Payment Store lookup of the fallback payment that
returns an error makes `GetChannelState` fail with that very error, and no
reply is returned. -/
theorem getChannelState_payment_lookup_failed (hp : Helpers)
    (service : PaymentChannelStateService) (request : ChannelStateRequest)
    (channel blockchainChannel : PaymentChannelData) (err : String)
    (hrec : recoveredSigner hp request = .ok channel.Signer)
    (hch : storedChannel hp service request = .found channel)
    (hbc : ledgerChannel hp service request = .found blockchainChannel)
    (hne : channel.Nonce ≠ blockchainChannel.Nonce)
    (hpay : fallbackPayment hp service channel = .failed err) :
    (GetChannelState hp service request).1 = .error err ∧
      ∀ reply, (GetChannelState hp service request).1 ≠ .ok reply := by
  rw [getChannelState_of_nonce_ne hp service request channel blockchainChannel hrec hch hbc hne,
    hpay]
  exact ⟨rfl, fun reply h => by cases h⟩

/-- Witness of C11: local nonce 3, ledger nonce 2, the payment store failing
with "etcd timeout". -/
theorem getChannelState_payment_lookup_failed_witness :
    (GetChannelState sampleHelpers
        (sampleService (.found sampleChannel) (.found (sampleLedgerChannel 2))
          (.failed "etcd timeout"))
        (sampleRequest 10)).1 = .error "etcd timeout" ∧
      ∀ reply, (GetChannelState sampleHelpers
        (sampleService (.found sampleChannel) (.found (sampleLedgerChannel 2))
          (.failed "etcd timeout"))
        (sampleRequest 10)).1 ≠ .ok reply :=
  getChannelState_payment_lookup_failed sampleHelpers
    (sampleService (.found sampleChannel) (.found (sampleLedgerChannel 2))
      (.failed "etcd timeout"))
    (sampleRequest 10) sampleChannel (sampleLedgerChannel 2) "etcd timeout" rfl rfl rfl
    (by decide) rfl

/-- The result of `GetChannelState` on the single-state path: the nonces match
or the ledger read did not return a channel. -/
theorem getChannelState_of_single_path (hp : Helpers) (service : PaymentChannelStateService)
    (request : ChannelStateRequest) (channel : PaymentChannelData)
    (hrec : recoveredSigner hp request = .ok channel.Signer)
    (hch : storedChannel hp service request = .found channel)
    (hpath : (∃ blockchainChannel, ledgerChannel hp service request = .found blockchainChannel ∧
        channel.Nonce = blockchainChannel.Nonce) ∨
      (∃ err, ledgerChannel hp service request = .failed err) ∨
      ledgerChannel hp service request = .missing) :
    GetChannelState hp service request =
      (.ok (currentStateReply hp channel),
        [.channelStore (requestKey hp request), .channelStore (requestKey hp request),
          .ledger (requestKey hp request)]) := by
  rcases hpath with ⟨blockchainChannel, hbc, heq⟩ | hbc | hbc
  · exact getChannelState_of_nonce_eq hp service request channel blockchainChannel hrec hch hbc
      heq
  · exact getChannelState_of_ledger_unavailable hp service request channel hrec hch (Or.inl hbc)
  · exact getChannelState_of_ledger_unavailable hp service request channel hrec hch (Or.inr hbc)

/-- C12: for an authenticated and authorized request on the single-state path
(the nonces match, or the ledger read errors or finds nothing), a channel
without a recorded signature gets the reply with CurrentNonce only, and a
channel with a recorded signature gets CurrentNonce, CurrentSignedAmount from
AuthorizedAmount and CurrentSignature from Signature, without old-nonce fields. -/
theorem getChannelState_single_state_reply (hp : Helpers)
    (service : PaymentChannelStateService) (request : ChannelStateRequest)
    (channel : PaymentChannelData)
    (hrec : recoveredSigner hp request = .ok channel.Signer)
    (hch : storedChannel hp service request = .found channel)
    (hpath : (∃ blockchainChannel, ledgerChannel hp service request = .found blockchainChannel ∧
        channel.Nonce = blockchainChannel.Nonce) ∨
      (∃ err, ledgerChannel hp service request = .failed err) ∨
      ledgerChannel hp service request = .missing) :
    (channel.Signature = none →
        (GetChannelState hp service request).1 =
          .ok { CurrentNonce := some (hp.bigIntToBytes channel.Nonce)
                CurrentSignedAmount := none
                CurrentSignature := none
                OldNonceSignedAmount := none
                OldNonceSignature := none }) ∧
      (∀ sig, channel.Signature = some sig →
        (GetChannelState hp service request).1 =
          .ok { CurrentNonce := some (hp.bigIntToBytes channel.Nonce)
                CurrentSignedAmount := some (hp.bigIntToBytes channel.AuthorizedAmount)
                CurrentSignature := some sig
                OldNonceSignedAmount := none
                OldNonceSignature := none }) := by
  rw [getChannelState_of_single_path hp service request channel hrec hch hpath]
  constructor
  · intro hsig
    simp only [currentStateReply, hsig]
  · intro sig hsig
    simp only [currentStateReply, hsig]

/-- Witness of C12: an unsigned channel with matching nonces, and a signed
channel with the ledger unreachable. -/
theorem getChannelState_single_state_reply_witness :
    (GetChannelState sampleHelpers
        (sampleService (.found sampleChannelUnsigned) (.found (sampleLedgerChannel 5)) .missing)
        (sampleRequest 10)).1 =
        .ok { CurrentNonce := some (sampleHelpers.bigIntToBytes sampleChannelUnsigned.Nonce)
              CurrentSignedAmount := none
              CurrentSignature := none
              OldNonceSignedAmount := none
              OldNonceSignature := none } ∧
      (GetChannelState sampleHelpers
        (sampleService (.found sampleChannel) (.failed "down") .missing)
        (sampleRequest 10)).1 =
        .ok { CurrentNonce := some (sampleHelpers.bigIntToBytes sampleChannel.Nonce)
              CurrentSignedAmount := some (sampleHelpers.bigIntToBytes sampleChannel.AuthorizedAmount)
              CurrentSignature := some [120]
              OldNonceSignedAmount := none
              OldNonceSignature := none } :=
  ⟨(getChannelState_single_state_reply sampleHelpers
      (sampleService (.found sampleChannelUnsigned) (.found (sampleLedgerChannel 5)) .missing)
      (sampleRequest 10) sampleChannelUnsigned rfl rfl
      (Or.inl ⟨sampleLedgerChannel 5, rfl, rfl⟩)).1 rfl,
    (getChannelState_single_state_reply sampleHelpers
      (sampleService (.found sampleChannel) (.failed "down") .missing)
      (sampleRequest 10) sampleChannel rfl rfl (Or.inr (Or.inl ⟨"down", rfl⟩))).2 [120] rfl⟩

/-! ## The order of the reads -/

/-- The read list of `GetChannelState` has one of four forms: empty; the
Channel Store alone; after a successful Channel Store read, the Channel Store
twice and the ledger; after successful Channel Store and ledger reads showing
different nonces, these three reads and the Payment Store at the fallback
identifier. -/
theorem getChannelState_reads_shape (hp : Helpers) (service : PaymentChannelStateService)
    (request : ChannelStateRequest) :
    (GetChannelState hp service request).2 = [] ∨
      (GetChannelState hp service request).2 = [.channelStore (requestKey hp request)] ∨
      (∃ channel, storedChannel hp service request = .found channel ∧
        (GetChannelState hp service request).2 =
          [.channelStore (requestKey hp request), .channelStore (requestKey hp request),
            .ledger (requestKey hp request)]) ∨
      (∃ channel blockchainChannel,
        storedChannel hp service request = .found channel ∧
        ledgerChannel hp service request = .found blockchainChannel ∧
        channel.Nonce ≠ blockchainChannel.Nonce ∧
        (GetChannelState hp service request).2 =
          [.channelStore (requestKey hp request), .channelStore (requestKey hp request),
            .ledger (requestKey hp request),
            .paymentStore (hp.PaymentID channel.ChannelID (channel.Nonce - 1))]) := by
  cases hrec : recoveredSigner hp request with
  | error e =>
      left
      rw [getChannelState_of_recover_error hp service request e hrec]
  | ok sender =>
      cases hch : storedChannel hp service request with
      | failed err =>
          right; left
          rw [getChannelState_of_store_failed hp service request sender err hrec hch]
      | missing =>
          right; left
          rw [getChannelState_of_store_missing hp service request sender hrec hch]
      | found channel =>
          by_cases hs : sender = channel.Signer
          · rw [hs] at hrec
            cases hbc : ledgerChannel hp service request with
            | failed err =>
                right; right; left
                refine ⟨channel, rfl, ?_⟩
                rw [getChannelState_of_ledger_unavailable hp service request channel hrec hch
                  (Or.inl ⟨err, hbc⟩)]
            | missing =>
                right; right; left
                refine ⟨channel, rfl, ?_⟩
                rw [getChannelState_of_ledger_unavailable hp service request channel hrec hch
                  (Or.inr hbc)]
            | found blockchainChannel =>
                by_cases heq : channel.Nonce = blockchainChannel.Nonce
                · right; right; left
                  refine ⟨channel, rfl, ?_⟩
                  rw [getChannelState_of_nonce_eq hp service request channel blockchainChannel
                    hrec hch hbc heq]
                · right; right; right
                  refine ⟨channel, blockchainChannel, rfl, rfl, heq, ?_⟩
                  rw [getChannelState_of_nonce_ne hp service request channel blockchainChannel
                    hrec hch hbc heq]
          · right; left
            rw [getChannelState_of_signer_ne hp service request sender channel hrec hch hs]

/-- C13: in every run of `GetChannelState` the reads are ordered Channel Store,
then Ledger Reader, then Payment Store; a ledger read occurs only after a
Channel Store read that returned the channel, and a Payment Store read occurs
only after a Channel Store read and a ledger read that both returned the
channel, with different nonces. -/
theorem getChannelState_read_order (hp : Helpers) (service : PaymentChannelStateService)
    (request : ChannelStateRequest) :
    (GetChannelState hp service request).2.Pairwise (fun a b => a.rank ≤ b.rank) ∧
      (∀ a ∈ (GetChannelState hp service request).2, a.isLedger = true →
        (∃ channel, storedChannel hp service request = .found channel) ∧
          ∃ c ∈ (GetChannelState hp service request).2, c.isChannelStore = true) ∧
      (∀ a ∈ (GetChannelState hp service request).2, a.isPaymentStore = true →
        (∃ channel blockchainChannel,
          storedChannel hp service request = .found channel ∧
          ledgerChannel hp service request = .found blockchainChannel ∧
          channel.Nonce ≠ blockchainChannel.Nonce) ∧
          (∃ c ∈ (GetChannelState hp service request).2, c.isChannelStore = true) ∧
          ∃ l ∈ (GetChannelState hp service request).2, l.isLedger = true) := by
  rcases getChannelState_reads_shape hp service request with h | h | ⟨channel, hch, h⟩ |
    ⟨channel, blockchainChannel, hch, hbc, hne, h⟩
  · rw [h]
    simp
  · rw [h]
    simp [Access.rank, Access.isLedger, Access.isPaymentStore]
  · rw [h]
    refine ⟨by simp [Access.rank], ?_, ?_⟩
    · intro a _ _
      exact ⟨⟨channel, hch⟩, _, List.mem_cons_self _ _, rfl⟩
    · intro a ha hp2
      simp only [List.mem_cons, List.mem_singleton, List.not_mem_nil, or_false] at ha
      rcases ha with rfl | rfl | rfl <;> simp [Access.isPaymentStore] at hp2
  · rw [h]
    refine ⟨by simp [Access.rank], ?_, ?_⟩
    · intro a _ _
      exact ⟨⟨channel, hch⟩, _, List.mem_cons_self _ _, rfl⟩
    · intro a _ _
      refine ⟨⟨channel, blockchainChannel, hch, hbc, hne⟩, ⟨_, List.mem_cons_self _ _, rfl⟩,
        ⟨.ledger (requestKey hp request), ?_, rfl⟩⟩
      simp

/-- Witness of C13: the four reads of a request with local nonce 3, ledger
nonce 2 and a stored payment. -/
theorem getChannelState_read_order_witness :
    (GetChannelState sampleHelpers
        (sampleService (.found sampleChannel) (.found (sampleLedgerChannel 2))
          (.found samplePayment))
        (sampleRequest 10)).2 =
        [.channelStore { ID := 7 }, .channelStore { ID := 7 }, .ledger { ID := 7 },
          .paymentStore "7/2"] ∧
      (GetChannelState sampleHelpers
        (sampleService (.found sampleChannel) (.found (sampleLedgerChannel 2))
          (.found samplePayment))
        (sampleRequest 10)).2.Pairwise (fun a b => a.rank ≤ b.rank) :=
  ⟨rfl, (getChannelState_read_order sampleHelpers
    (sampleService (.found sampleChannel) (.found (sampleLedgerChannel 2))
      (.found samplePayment))
    (sampleRequest 10)).1⟩

/-! ## Dependence on the reads only -/

/-- Two services that answer the Channel Store read of a request alike. -/
theorem storedChannel_of_sameAnswer (hp : Helpers) (service other : PaymentChannelStateService)
    (request : ChannelStateRequest)
    (h : (Access.channelStore (requestKey hp request)).sameAnswer service other = true) :
    storedChannel hp other request = storedChannel hp service request := by
  simp only [Access.sameAnswer, decide_eq_true_eq] at h
  unfold storedChannel
  exact h.symm

/-- Two services that answer the ledger read of a request alike. -/
theorem ledgerChannel_of_sameAnswer (hp : Helpers) (service other : PaymentChannelStateService)
    (request : ChannelStateRequest)
    (h : (Access.ledger (requestKey hp request)).sameAnswer service other = true) :
    ledgerChannel hp other request = ledgerChannel hp service request := by
  simp only [Access.sameAnswer, decide_eq_true_eq] at h
  unfold ledgerChannel
  exact h.symm

/-- Two services that answer the fallback payment read of a channel alike. -/
theorem fallbackPayment_of_sameAnswer (hp : Helpers)
    (service other : PaymentChannelStateService) (channel : PaymentChannelData)
    (h : (Access.paymentStore (hp.PaymentID channel.ChannelID (channel.Nonce - 1))).sameAnswer
      service other = true) :
    fallbackPayment hp other channel = fallbackPayment hp service channel := by
  simp only [Access.sameAnswer, decide_eq_true_eq] at h
  unfold fallbackPayment
  exact h.symm

/-- The result of `GetChannelState` is the same on two services that give the
same answers to the reads the call performs on the first. -/
theorem getChannelState_frame (hp : Helpers) (service other : PaymentChannelStateService)
    (request : ChannelStateRequest)
    (hsame : ∀ a ∈ (GetChannelState hp service request).2, a.sameAnswer service other = true) :
    GetChannelState hp other request = GetChannelState hp service request := by
  cases hrec : recoveredSigner hp request with
  | error e =>
      rw [getChannelState_of_recover_error hp service request e hrec,
        getChannelState_of_recover_error hp other request e hrec]
  | ok sender =>
      cases hch : storedChannel hp service request with
      | failed err =>
          rw [getChannelState_of_store_failed hp service request sender err hrec hch] at hsame ⊢
          have hch2 := storedChannel_of_sameAnswer hp service other request
            (hsame _ (List.mem_cons_self _ _))
          rw [hch] at hch2
          rw [getChannelState_of_store_failed hp other request sender err hrec hch2]
      | missing =>
          rw [getChannelState_of_store_missing hp service request sender hrec hch] at hsame ⊢
          have hch2 := storedChannel_of_sameAnswer hp service other request
            (hsame _ (List.mem_cons_self _ _))
          rw [hch] at hch2
          rw [getChannelState_of_store_missing hp other request sender hrec hch2]
      | found channel =>
          by_cases hs : sender = channel.Signer
          · rw [hs] at hrec
            cases hbc : ledgerChannel hp service request with
            | failed err =>
                rw [getChannelState_of_ledger_unavailable hp service request channel hrec hch
                  (Or.inl ⟨err, hbc⟩)] at hsame ⊢
                have hch2 := storedChannel_of_sameAnswer hp service other request
                  (hsame _ (List.mem_cons_self _ _))
                have hbc2 := ledgerChannel_of_sameAnswer hp service other request
                  (hsame _ (by simp))
                rw [hch] at hch2
                rw [hbc] at hbc2
                rw [getChannelState_of_ledger_unavailable hp other request channel hrec hch2
                  (Or.inl ⟨err, hbc2⟩)]
            | missing =>
                rw [getChannelState_of_ledger_unavailable hp service request channel hrec hch
                  (Or.inr hbc)] at hsame ⊢
                have hch2 := storedChannel_of_sameAnswer hp service other request
                  (hsame _ (List.mem_cons_self _ _))
                have hbc2 := ledgerChannel_of_sameAnswer hp service other request
                  (hsame _ (by simp))
                rw [hch] at hch2
                rw [hbc] at hbc2
                rw [getChannelState_of_ledger_unavailable hp other request channel hrec hch2
                  (Or.inr hbc2)]
            | found blockchainChannel =>
                by_cases heq : channel.Nonce = blockchainChannel.Nonce
                · rw [getChannelState_of_nonce_eq hp service request channel blockchainChannel
                    hrec hch hbc heq] at hsame ⊢
                  have hch2 := storedChannel_of_sameAnswer hp service other request
                    (hsame _ (List.mem_cons_self _ _))
                  have hbc2 := ledgerChannel_of_sameAnswer hp service other request
                    (hsame _ (by simp))
                  rw [hch] at hch2
                  rw [hbc] at hbc2
                  rw [getChannelState_of_nonce_eq hp other request channel blockchainChannel
                    hrec hch2 hbc2 heq]
                · rw [getChannelState_of_nonce_ne hp service request channel blockchainChannel
                    hrec hch hbc heq] at hsame ⊢
                  have hch2 := storedChannel_of_sameAnswer hp service other request
                    (hsame _ (List.mem_cons_self _ _))
                  have hbc2 := ledgerChannel_of_sameAnswer hp service other request
                    (hsame _ (by simp))
                  have hpay2 := fallbackPayment_of_sameAnswer hp service other channel
                    (hsame _ (by simp))
                  rw [hch] at hch2
                  rw [hbc] at hbc2
                  rw [getChannelState_of_nonce_ne hp other request channel blockchainChannel
                    hrec hch2 hbc2 heq, hpay2]
          · rw [getChannelState_of_signer_ne hp service request sender channel hrec hch hs]
              at hsame ⊢
            have hch2 := storedChannel_of_sameAnswer hp service other request
              (hsame _ (List.mem_cons_self _ _))
            rw [hch] at hch2
            rw [getChannelState_of_signer_ne hp other request sender channel hrec hch2 hs]

/-! ## The fallback window -/

/-- Every read of `GetChannelState` is a Channel Store or ledger read at the
request key, or the Payment Store read at the fallback identifier of the
stored channel. -/
theorem getChannelState_reads_mem (hp : Helpers) (service : PaymentChannelStateService)
    (request : ChannelStateRequest) (a : Access)
    (ha : a ∈ (GetChannelState hp service request).2) :
    a = .channelStore (requestKey hp request) ∨ a = .ledger (requestKey hp request) ∨
      ∃ channel, storedChannel hp service request = .found channel ∧
        a = .paymentStore (hp.PaymentID channel.ChannelID (channel.Nonce - 1)) := by
  rcases getChannelState_reads_shape hp service request with h | h | ⟨channel, _, h⟩ |
    ⟨channel, blockchainChannel, hch, _, _, h⟩
  · rw [h] at ha
    cases ha
  · rw [h] at ha
    simp only [List.mem_singleton] at ha
    exact Or.inl ha
  · rw [h] at ha
    simp only [List.mem_cons, List.mem_singleton, List.not_mem_nil, or_false] at ha
    rcases ha with ha | ha | ha
    · exact Or.inl ha
    · exact Or.inl ha
    · exact Or.inr (Or.inl ha)
  · rw [h] at ha
    simp only [List.mem_cons, List.mem_singleton, List.not_mem_nil, or_false] at ha
    rcases ha with ha | ha | ha | ha
    · exact Or.inl ha
    · exact Or.inl ha
    · exact Or.inr (Or.inl ha)
    · exact Or.inr (Or.inr ⟨channel, hch, ha⟩)

/-- C19: the Payment Store is consulted at the single identifier
`PaymentID(channel.ChannelID, channel.Nonce - 1)` of the stored channel and at
no other: every Payment Store read of a run is at that identifier, and two
services with the same channel service whose payment stores agree at that
identifier give the same result, however the payment stores differ elsewhere. -/
theorem getChannelState_fallback_window (hp : Helpers)
    (service other : PaymentChannelStateService) (request : ChannelStateRequest)
    (hsvc : other.channelService = service.channelService)
    (hagree : ∀ channel, storedChannel hp service request = .found channel →
      other.paymentStorage.Get (hp.PaymentID channel.ChannelID (channel.Nonce - 1)) =
        service.paymentStorage.Get (hp.PaymentID channel.ChannelID (channel.Nonce - 1))) :
    GetChannelState hp other request = GetChannelState hp service request ∧
      ∀ paymentID, Access.paymentStore paymentID ∈ (GetChannelState hp service request).2 →
        ∃ channel, storedChannel hp service request = .found channel ∧
          paymentID = hp.PaymentID channel.ChannelID (channel.Nonce - 1) := by
  constructor
  · apply getChannelState_frame
    intro a ha
    rcases getChannelState_reads_mem hp service request a ha with rfl | rfl | ⟨channel, hch, rfl⟩
    · simp [Access.sameAnswer, hsvc]
    · simp [Access.sameAnswer, hsvc]
    · simp [Access.sameAnswer, hagree channel hch]
  · intro paymentID ha
    rcases getChannelState_reads_mem hp service request _ ha with h | h | ⟨channel, hch, h⟩
    · cases h
    · cases h
    · exact ⟨channel, hch, Access.paymentStore.inj h⟩

/-- Witness of C19: local nonce 3, ledger nonce 2; one payment store holds a
payment under "7/2" only, the other also under "7/1" and "7/3" and fails
elsewhere. -/
theorem getChannelState_fallback_window_witness :
    GetChannelState sampleHelpers
        (sampleServiceWith (.found sampleChannel) (.found (sampleLedgerChannel 2))
          samplePaymentsWide)
        (sampleRequest 10) =
      GetChannelState sampleHelpers
        (sampleServiceWith (.found sampleChannel) (.found (sampleLedgerChannel 2))
          samplePaymentsNarrow)
        (sampleRequest 10) ∧
      ∀ paymentID, Access.paymentStore paymentID ∈ (GetChannelState sampleHelpers
        (sampleServiceWith (.found sampleChannel) (.found (sampleLedgerChannel 2))
          samplePaymentsNarrow)
        (sampleRequest 10)).2 →
        ∃ channel, storedChannel sampleHelpers
            (sampleServiceWith (.found sampleChannel) (.found (sampleLedgerChannel 2))
              samplePaymentsNarrow)
            (sampleRequest 10) = .found channel ∧
          paymentID = sampleHelpers.PaymentID channel.ChannelID (channel.Nonce - 1) :=
  getChannelState_fallback_window sampleHelpers
    (sampleServiceWith (.found sampleChannel) (.found (sampleLedgerChannel 2))
      samplePaymentsNarrow)
    (sampleServiceWith (.found sampleChannel) (.found (sampleLedgerChannel 2))
      samplePaymentsWide)
    (sampleRequest 10) rfl
    (fun channel h => by
      have h2 : Lookup.found sampleChannel = Lookup.found channel := h
      cases h2
      rfl)

/-- The two payment stores of the witness of C19 differ at nonce 1 and at
nonce 3. -/
theorem samplePayments_differ :
    samplePaymentsWide "7/1" ≠ samplePaymentsNarrow "7/1" ∧
      samplePaymentsWide "7/3" ≠ samplePaymentsNarrow "7/3" := by
  decide

/-- C20: for an authenticated and authorized request where both nonce reads
succeed and the local nonce differs from the ledger nonce, in either direction
and by any amount, the outcome is decided by the Payment Store lookup at
`PaymentID(channel.ChannelID, channel.Nonce - 1)`: a found payment gives the
reply with the channel's current fields and the payment's old-nonce fields, an
absent payment and a store error give an error; and any other ledger nonce
that differs from the local one gives the same result. -/
theorem getChannelState_any_mismatch (hp : Helpers) (service : PaymentChannelStateService)
    (request : ChannelStateRequest) (channel blockchainChannel : PaymentChannelData)
    (hrec : recoveredSigner hp request = .ok channel.Signer)
    (hch : storedChannel hp service request = .found channel)
    (hbc : ledgerChannel hp service request = .found blockchainChannel)
    (hne : channel.Nonce ≠ blockchainChannel.Nonce) :
    (∀ payment, fallbackPayment hp service channel = .found payment →
        (GetChannelState hp service request).1 =
          .ok { CurrentNonce := some (hp.bigIntToBytes channel.Nonce)
                CurrentSignedAmount := some (hp.bigIntToBytes channel.AuthorizedAmount)
                CurrentSignature := channel.Signature
                OldNonceSignedAmount := some (hp.bigIntToBytes payment.Amount)
                OldNonceSignature := payment.Signature }) ∧
      (fallbackPayment hp service channel = .missing →
        (GetChannelState hp service request).1 =
          .error "channel has different nonce in local storage and blockchain") ∧
      (∀ err, fallbackPayment hp service channel = .failed err →
        (GetChannelState hp service request).1 = .error err) ∧
      (GetChannelState hp service request).2 =
        [.channelStore (requestKey hp request), .channelStore (requestKey hp request),
          .ledger (requestKey hp request),
          .paymentStore (hp.PaymentID channel.ChannelID (channel.Nonce - 1))] ∧
      ∀ other otherBlockchainChannel,
        storedChannel hp other request = .found channel →
        ledgerChannel hp other request = .found otherBlockchainChannel →
        channel.Nonce ≠ otherBlockchainChannel.Nonce →
        fallbackPayment hp other channel = fallbackPayment hp service channel →
        GetChannelState hp other request = GetChannelState hp service request := by
  rw [getChannelState_of_nonce_ne hp service request channel blockchainChannel hrec hch hbc hne]
  refine ⟨?_, ?_, ?_, rfl, ?_⟩
  · intro payment hpay
    rw [hpay]
  · intro hpay
    rw [hpay]
  · intro err hpay
    rw [hpay]
  · intro other otherBlockchainChannel hch2 hbc2 hne2 hpay2
    rw [getChannelState_of_nonce_ne hp other request channel otherBlockchainChannel hrec hch2
      hbc2 hne2, hpay2]

/-- Witness of C20: local nonce 0 against ledger nonce 5, the payment being
stored under the identifier of channel 7 and nonce -1. -/
theorem getChannelState_any_mismatch_witness :
    (GetChannelState sampleHelpers
        (sampleServiceWith (.found sampleChannelFresh) (.found (sampleLedgerChannel 5))
          samplePaymentsBelowZero)
        (sampleRequest 10)).1 =
      .ok { CurrentNonce := some (sampleHelpers.bigIntToBytes sampleChannelFresh.Nonce)
            CurrentSignedAmount :=
              some (sampleHelpers.bigIntToBytes sampleChannelFresh.AuthorizedAmount)
            CurrentSignature := sampleChannelFresh.Signature
            OldNonceSignedAmount := some (sampleHelpers.bigIntToBytes samplePayment.Amount)
            OldNonceSignature := samplePayment.Signature } :=
  (getChannelState_any_mismatch sampleHelpers
    (sampleServiceWith (.found sampleChannelFresh) (.found (sampleLedgerChannel 5))
      samplePaymentsBelowZero)
    (sampleRequest 10) sampleChannelFresh (sampleLedgerChannel 5) rfl rfl rfl
    (by decide)).1 samplePayment rfl

/-- The mismatches of C20 evaluated: local nonce 3 below the ledger nonce 9,
local nonce 3 above the ledger nonce 0, both answered from the payment under
"7/2"; and local nonce 0 reads the Payment Store at the identifier of nonce -1. -/
theorem getChannelState_any_mismatch_example :
    (GetChannelState sampleHelpers
        (sampleService (.found sampleChannel) (.found (sampleLedgerChannel 9))
          (.found samplePayment))
        (sampleRequest 10)).1 =
      (GetChannelState sampleHelpers
        (sampleService (.found sampleChannel) (.found (sampleLedgerChannel 2))
          (.found samplePayment))
        (sampleRequest 10)).1 ∧
      (GetChannelState sampleHelpers
        (sampleService (.found sampleChannel) (.found (sampleLedgerChannel 0))
          (.found samplePayment))
        (sampleRequest 10)).1 =
      (GetChannelState sampleHelpers
        (sampleService (.found sampleChannel) (.found (sampleLedgerChannel 2))
          (.found samplePayment))
        (sampleRequest 10)).1 ∧
      (GetChannelState sampleHelpers
        (sampleServiceWith (.found sampleChannelFresh) (.found (sampleLedgerChannel 5))
          samplePaymentsBelowZero)
        (sampleRequest 10)).2 =
        [.channelStore { ID := 7 }, .channelStore { ID := 7 }, .ledger { ID := 7 },
          .paymentStore "7/-1"] := by
  refine ⟨rfl, rfl, rfl⟩

/-! ## Reply shapes -/

/-- Counterexample to C15 as stated: channel 7 has no recorded signature, its
local nonce 3 differs from the ledger nonce 2, a payment is stored under "7/2",
and `GetChannelState` returns a reply, with CurrentSignature absent. -/
theorem getChannelState_unsigned_mismatch_reply :
    sampleChannelClaimed.Signature = none ∧
      sampleChannelClaimed.Nonce ≠ (sampleLedgerChannel 2).Nonce ∧
      (GetChannelState sampleHelpers
        (sampleService (.found sampleChannelClaimed) (.found (sampleLedgerChannel 2))
          (.found samplePayment))
        (sampleRequest 10)).1 =
        .ok { CurrentNonce := some (List.replicate 31 0 ++ [3])
              CurrentSignedAmount := some (List.replicate 32 0)
              CurrentSignature := none
              OldNonceSignedAmount := some (List.replicate 31 0 ++ [80])
              OldNonceSignature := some [121] } := by
  refine ⟨rfl, by decide, rfl⟩

/-- C15, amended: for an authenticated and authorized request on a channel with
no recorded Signature whose local nonce differs from the ledger nonce,
`GetChannelState` fails with "channel has different nonce in local storage and
blockchain" when the Payment Store has no payment at nonce - 1; when a payment
exists there it returns the reply with CurrentNonce, CurrentSignedAmount and
the payment's old-nonce fields, CurrentSignature being absent. -/
theorem getChannelState_unsigned_mismatch (hp : Helpers)
    (service : PaymentChannelStateService) (request : ChannelStateRequest)
    (channel blockchainChannel : PaymentChannelData)
    (hrec : recoveredSigner hp request = .ok channel.Signer)
    (hch : storedChannel hp service request = .found channel)
    (hbc : ledgerChannel hp service request = .found blockchainChannel)
    (hne : channel.Nonce ≠ blockchainChannel.Nonce)
    (hsig : channel.Signature = none) :
    (fallbackPayment hp service channel = .missing →
        (GetChannelState hp service request).1 =
          .error "channel has different nonce in local storage and blockchain") ∧
      (∀ payment, fallbackPayment hp service channel = .found payment →
        (GetChannelState hp service request).1 =
          .ok { CurrentNonce := some (hp.bigIntToBytes channel.Nonce)
                CurrentSignedAmount := some (hp.bigIntToBytes channel.AuthorizedAmount)
                CurrentSignature := none
                OldNonceSignedAmount := some (hp.bigIntToBytes payment.Amount)
                OldNonceSignature := payment.Signature }) := by
  rw [getChannelState_of_nonce_ne hp service request channel blockchainChannel hrec hch hbc hne]
  constructor
  · intro hpay
    rw [hpay]
  · intro payment hpay
    rw [hpay, hsig]

/-- Witness of C15, amended: the unsigned channel with local nonce 3 and ledger
nonce 2, without and with a payment under "7/2". -/
theorem getChannelState_unsigned_mismatch_witness :
    (GetChannelState sampleHelpers
        (sampleService (.found sampleChannelClaimed) (.found (sampleLedgerChannel 2)) .missing)
        (sampleRequest 10)).1 =
        .error "channel has different nonce in local storage and blockchain" ∧
      (GetChannelState sampleHelpers
        (sampleService (.found sampleChannelClaimed) (.found (sampleLedgerChannel 2))
          (.found samplePayment))
        (sampleRequest 10)).1 =
        .ok { CurrentNonce := some (sampleHelpers.bigIntToBytes sampleChannelClaimed.Nonce)
              CurrentSignedAmount :=
                some (sampleHelpers.bigIntToBytes sampleChannelClaimed.AuthorizedAmount)
              CurrentSignature := none
              OldNonceSignedAmount := some (sampleHelpers.bigIntToBytes samplePayment.Amount)
              OldNonceSignature := samplePayment.Signature } :=
  ⟨(getChannelState_unsigned_mismatch sampleHelpers
      (sampleService (.found sampleChannelClaimed) (.found (sampleLedgerChannel 2)) .missing)
      (sampleRequest 10) sampleChannelClaimed (sampleLedgerChannel 2) rfl rfl rfl (by decide)
      rfl).1 rfl,
    (getChannelState_unsigned_mismatch sampleHelpers
      (sampleService (.found sampleChannelClaimed) (.found (sampleLedgerChannel 2))
        (.found samplePayment))
      (sampleRequest 10) sampleChannelClaimed (sampleLedgerChannel 2) rfl rfl rfl (by decide)
      rfl).2 samplePayment rfl⟩

/-- A reply of `GetChannelState` is either the reply built from the stored
channel alone or the fallback reply built from the stored channel and the
payment found at the fallback identifier. -/
theorem getChannelState_reply_cases (hp : Helpers) (service : PaymentChannelStateService)
    (request : ChannelStateRequest) (reply : ChannelStateReply)
    (hreply : (GetChannelState hp service request).1 = .ok reply) :
    (∃ channel, storedChannel hp service request = .found channel ∧
        reply = currentStateReply hp channel) ∨
      ∃ channel payment, storedChannel hp service request = .found channel ∧
        fallbackPayment hp service channel = .found payment ∧
        reply =
          { CurrentNonce := some (hp.bigIntToBytes channel.Nonce)
            CurrentSignedAmount := some (hp.bigIntToBytes channel.AuthorizedAmount)
            CurrentSignature := channel.Signature
            OldNonceSignedAmount := some (hp.bigIntToBytes payment.Amount)
            OldNonceSignature := payment.Signature } := by
  cases hrec : recoveredSigner hp request with
  | error e =>
      rw [getChannelState_of_recover_error hp service request e hrec] at hreply
      cases hreply
  | ok sender =>
      cases hch : storedChannel hp service request with
      | failed err =>
          rw [getChannelState_of_store_failed hp service request sender err hrec hch] at hreply
          cases hreply
      | missing =>
          rw [getChannelState_of_store_missing hp service request sender hrec hch] at hreply
          cases hreply
      | found channel =>
          by_cases hs : sender = channel.Signer
          · rw [hs] at hrec
            by_cases hpath : (∃ blockchainChannel,
                ledgerChannel hp service request = .found blockchainChannel ∧
                  channel.Nonce = blockchainChannel.Nonce) ∨
                (∃ err, ledgerChannel hp service request = .failed err) ∨
                ledgerChannel hp service request = .missing
            · rw [getChannelState_of_single_path hp service request channel hrec hch hpath]
                at hreply
              exact Or.inl ⟨channel, rfl, (Except.ok.inj hreply).symm⟩
            · cases hbc : ledgerChannel hp service request with
              | failed err => exact absurd (Or.inr (Or.inl ⟨err, hbc⟩)) hpath
              | missing => exact absurd (Or.inr (Or.inr hbc)) hpath
              | found blockchainChannel =>
                  have hne : channel.Nonce ≠ blockchainChannel.Nonce := fun heq =>
                    hpath (Or.inl ⟨blockchainChannel, hbc, heq⟩)
                  rw [getChannelState_of_nonce_ne hp service request channel blockchainChannel
                    hrec hch hbc hne] at hreply
                  cases hpay : fallbackPayment hp service channel with
                  | failed err =>
                      rw [hpay] at hreply
                      cases hreply
                  | missing =>
                      rw [hpay] at hreply
                      cases hreply
                  | found payment =>
                      rw [hpay] at hreply
                      exact Or.inr ⟨channel, payment, rfl, hpay, (Except.ok.inj hreply).symm⟩
          · rw [getChannelState_of_signer_ne hp service request sender channel hrec hch hs]
              at hreply
            cases hreply

/-- Counterexample to C16 as stated: for the unsigned channel 7 with local
nonce 3, ledger nonce 2 and a payment under "7/2", the reply has none of the
three shapes: it carries CurrentSignedAmount and both old-nonce fields without
a CurrentSignature. -/
theorem getChannelState_reply_outside_shapes :
    ∃ reply, (GetChannelState sampleHelpers
        (sampleService (.found sampleChannelClaimed) (.found (sampleLedgerChannel 2))
          (.found samplePayment))
        (sampleRequest 10)).1 = .ok reply ∧
      reply.isNonceOnly = false ∧ reply.isCurrentOnly = false ∧ reply.isDualState = false ∧
      reply.CurrentSignedAmount.isSome = true ∧ reply.OldNonceSignedAmount.isSome = true ∧
      reply.OldNonceSignature.isSome = true ∧ reply.CurrentSignature = none :=
  ⟨_, rfl, rfl, rfl, rfl, rfl, rfl, rfl, rfl⟩

/-- C16, amended: every reply `GetChannelState` returns carries CurrentNonce and
is nonce-only, current-only, or a fallback reply that carries CurrentNonce,
CurrentSignedAmount and OldNonceSignedAmount, has CurrentSignature as recorded
in the channel and OldNonceSignature as recorded in the found payment, and so
has the dual-state shape when both signatures are recorded. -/
theorem getChannelState_reply_shapes (hp : Helpers) (service : PaymentChannelStateService)
    (request : ChannelStateRequest) (reply : ChannelStateReply)
    (hreply : (GetChannelState hp service request).1 = .ok reply) :
    reply.CurrentNonce.isSome = true ∧
      (reply.isNonceOnly = true ∨ reply.isCurrentOnly = true ∨
        ∃ channel payment, storedChannel hp service request = .found channel ∧
          fallbackPayment hp service channel = .found payment ∧
          reply.CurrentSignedAmount.isSome = true ∧
          reply.OldNonceSignedAmount.isSome = true ∧
          reply.CurrentSignature = channel.Signature ∧
          reply.OldNonceSignature = payment.Signature ∧
          (channel.Signature.isSome = true → payment.Signature.isSome = true →
            reply.isDualState = true)) := by
  rcases getChannelState_reply_cases hp service request reply hreply with
    ⟨channel, _, rfl⟩ | ⟨channel, payment, hch, hpay, rfl⟩
  · unfold currentStateReply
    cases channel.Signature with
    | none => exact ⟨rfl, Or.inl rfl⟩
    | some sig => exact ⟨rfl, Or.inr (Or.inl rfl)⟩
  · refine ⟨rfl, Or.inr (Or.inr ⟨channel, payment, hch, hpay, rfl, rfl, rfl, rfl, ?_⟩)⟩
    intro h1 h2
    simp [ChannelStateReply.isDualState, h1, h2]

/-- Witness of C16, amended: the reply to the signed channel with local nonce
3, ledger nonce 2 and a signed payment has the dual-state shape. -/
theorem getChannelState_reply_shapes_witness :
    sampleDualStateReply.CurrentNonce.isSome = true ∧
      (sampleDualStateReply.isNonceOnly = true ∨ sampleDualStateReply.isCurrentOnly = true ∨
        ∃ channel payment,
          storedChannel sampleHelpers
            (sampleService (.found sampleChannel) (.found (sampleLedgerChannel 2))
              (.found samplePayment))
            (sampleRequest 10) = .found channel ∧
          fallbackPayment sampleHelpers
            (sampleService (.found sampleChannel) (.found (sampleLedgerChannel 2))
              (.found samplePayment))
            channel = .found payment ∧
          sampleDualStateReply.CurrentSignedAmount.isSome = true ∧
          sampleDualStateReply.OldNonceSignedAmount.isSome = true ∧
          sampleDualStateReply.CurrentSignature = channel.Signature ∧
          sampleDualStateReply.OldNonceSignature = payment.Signature ∧
          (channel.Signature.isSome = true → payment.Signature.isSome = true →
            sampleDualStateReply.isDualState = true)) :=
  getChannelState_reply_shapes sampleHelpers
    (sampleService (.found sampleChannel) (.found (sampleLedgerChannel 2))
      (.found samplePayment))
    (sampleRequest 10) sampleDualStateReply rfl

end Escrow

namespace Escrow

/-! ## Collaborators with state -/

/-- Over collaborators that only read, the nonce check with state is the nonce
check over the snapshot of the state, and leaves the state as it is. -/
theorem stateful_storageNonce_readsOnly {σ : Type} (service : StatefulService σ)
    (key : PaymentChannelKey) (s : σ) (hro : service.ReadsOnly) :
    Stateful.StorageNonceMatchesWithBlockchainNonce service key s =
      (StorageNonceMatchesWithBlockchainNonce (service.snapshot s) key, s) := by
  have h1 := hro.1 key s
  have h2 := hro.2.1 key s
  rcases hc : service.PaymentChannel key s with ⟨l1, s1⟩
  rw [hc] at h1
  simp only at h1
  subst h1
  rcases hb : service.PaymentChannelFromBlockChain key s1 with ⟨l2, s2⟩
  rw [hb] at h2
  simp only at h2
  subst h2
  cases l1 <;> cases l2 <;>
    simp [Stateful.StorageNonceMatchesWithBlockchainNonce, StorageNonceMatchesWithBlockchainNonce,
      StatefulService.snapshot, hc, hb]

/-- Over collaborators that only read, `GetChannelState` with state is
`GetChannelState` over the snapshot of the state, and leaves the state as it
is. -/
theorem stateful_getChannelState_readsOnly {σ : Type} (hp : Helpers)
    (service : StatefulService σ) (request : ChannelStateRequest) (s : σ)
    (hro : service.ReadsOnly) :
    Stateful.GetChannelState hp service request s =
      (GetChannelState hp (service.snapshot s) request, s) := by
  have h1 := hro.1 { ID := hp.bytesToBigInt request.ChannelId } s
  rcases hc : service.PaymentChannel { ID := hp.bytesToBigInt request.ChannelId } s with ⟨l1, s1⟩
  rw [hc] at h1
  simp only at h1
  subst h1
  have hsnap : (service.snapshot s1).channelService.PaymentChannel
      { ID := hp.bytesToBigInt request.ChannelId } = l1 := by
    simp [StatefulService.snapshot, hc]
  cases hrec : hp.getSignerAddressFromMessage
      (hp.bigIntToBytes (hp.bytesToBigInt request.ChannelId)) request.Signature with
  | error e => simp only [Stateful.GetChannelState, GetChannelState, hrec]
  | ok sender =>
      cases l1 with
      | failed err => simp only [Stateful.GetChannelState, GetChannelState, hrec, hc, hsnap]
      | missing => simp only [Stateful.GetChannelState, GetChannelState, hrec, hc, hsnap]
      | found channel =>
          by_cases hs : channel.Signer = sender
          · have h3 := hro.2.2 (hp.PaymentID channel.ChannelID (channel.Nonce - 1)) s1
            rcases hpay : service.paymentStorageGet
                (hp.PaymentID channel.ChannelID (channel.Nonce - 1)) s1 with ⟨l3, s3⟩
            rw [hpay] at h3
            simp only at h3
            subst h3
            have hsnap3 : (service.snapshot s3).paymentStorage.Get
                (hp.PaymentID channel.ChannelID (channel.Nonce - 1)) = l3 := by
              simp [StatefulService.snapshot, hpay]
            simp only [Stateful.GetChannelState, GetChannelState, hrec, hc, hsnap, hs, ne_eq,
              not_true_eq_false, if_false, stateful_storageNonce_readsOnly service _ s3 hro]
            rcases hchk : (StorageNonceMatchesWithBlockchainNonce (service.snapshot s3)
                { ID := hp.bytesToBigInt request.ChannelId }).1 with e | b
            · rfl
            · cases b with
              | true => rfl
              | false =>
                  simp only [hpay, hsnap3]
                  cases l3 <;> rfl
          · simp only [Stateful.GetChannelState, GetChannelState, hrec, hc, hsnap, hs, ne_eq,
              not_false_eq_true, if_true]

/-- The state after `GetChannelState` is the state after the collaborator reads
it made: the method itself changes nothing in the stores. -/
theorem stateful_getChannelState_state {σ : Type} (hp : Helpers)
    (service : StatefulService σ) (request : ChannelStateRequest) (s : σ) :
    (Stateful.GetChannelState hp service request s).2 =
      service.replay (Stateful.GetChannelState hp service request s).1.2 s := by
  cases hrec : hp.getSignerAddressFromMessage
      (hp.bigIntToBytes (hp.bytesToBigInt request.ChannelId)) request.Signature with
  | error e => simp [Stateful.GetChannelState, hrec, StatefulService.replay]
  | ok sender =>
      rcases hc : service.PaymentChannel { ID := hp.bytesToBigInt request.ChannelId } s with
        ⟨l1, s1⟩
      cases l1 with
      | failed err =>
          simp [Stateful.GetChannelState, hrec, hc, StatefulService.replay, Access.stateAfter]
      | missing =>
          simp [Stateful.GetChannelState, hrec, hc, StatefulService.replay, Access.stateAfter]
      | found channel =>
          by_cases hs : channel.Signer = sender
          · rcases hc2 : service.PaymentChannel { ID := hp.bytesToBigInt request.ChannelId } s1
              with ⟨l2, s2⟩
            rcases hb : service.PaymentChannelFromBlockChain
              { ID := hp.bytesToBigInt request.ChannelId } s2 with ⟨l3, s3⟩
            rcases hpay : service.paymentStorageGet
              (hp.PaymentID channel.ChannelID (channel.Nonce - 1)) s3 with ⟨l4, s4⟩
            cases l2 with
            | failed err =>
                simp [Stateful.GetChannelState, Stateful.StorageNonceMatchesWithBlockchainNonce,
                  hrec, hc, hc2, hs, StatefulService.replay, Access.stateAfter]
            | missing =>
                simp [Stateful.GetChannelState, Stateful.StorageNonceMatchesWithBlockchainNonce,
                  hrec, hc, hc2, hs, StatefulService.replay, Access.stateAfter]
            | found channel2 =>
                cases l3 with
                | failed err =>
                    simp [Stateful.GetChannelState,
                      Stateful.StorageNonceMatchesWithBlockchainNonce, hrec, hc, hc2, hb, hs,
                      StatefulService.replay, Access.stateAfter]
                | missing =>
                    simp [Stateful.GetChannelState,
                      Stateful.StorageNonceMatchesWithBlockchainNonce, hrec, hc, hc2, hb, hs,
                      StatefulService.replay, Access.stateAfter]
                | found blockchainChannel =>
                    by_cases heq : Cmp channel2.Nonce blockchainChannel.Nonce = 0
                    · simp [Stateful.GetChannelState,
                        Stateful.StorageNonceMatchesWithBlockchainNonce, hrec, hc, hc2, hb, hs,
                        heq, StatefulService.replay, Access.stateAfter]
                    · cases l4 <;>
                        simp [Stateful.GetChannelState,
                          Stateful.StorageNonceMatchesWithBlockchainNonce, hrec, hc, hc2, hb,
                          hpay, hs, heq, StatefulService.replay, Access.stateAfter]
          · simp [Stateful.GetChannelState, hrec, hc, hs, StatefulService.replay,
              Access.stateAfter]

/-- The sample collaborators over key-value lists only read. -/
theorem sampleStatefulService_readsOnly : sampleStatefulService.ReadsOnly :=
  ⟨fun _ _ => rfl, fun _ _ => rfl, fun _ _ => rfl⟩

/-- C14: `GetChannelState` is read-only and idempotent. The state of the
stores after a call is the state after the collaborator reads it made, so the
method itself changes nothing; and when the three collaborator methods are
reads, the Channel Store, the ledger and the Payment Store are left as they
were, a second call with the same request made after the first returns the
identical result (same reply or same error, same reads), and that result is
the one computed over the unchanged contents of the stores. -/
theorem stateful_getChannelState_read_only_idempotent {σ : Type} (hp : Helpers)
    (service : StatefulService σ) (request : ChannelStateRequest) (s : σ) :
    (Stateful.GetChannelState hp service request s).2 =
        service.replay (Stateful.GetChannelState hp service request s).1.2 s ∧
      (service.ReadsOnly →
        (Stateful.GetChannelState hp service request s).2 = s ∧
          Stateful.GetChannelState hp service request
              (Stateful.GetChannelState hp service request s).2 =
            Stateful.GetChannelState hp service request s ∧
          (Stateful.GetChannelState hp service request s).1 =
            GetChannelState hp (service.snapshot s) request) := by
  refine ⟨stateful_getChannelState_state hp service request s, ?_⟩
  intro hro
  rw [stateful_getChannelState_readsOnly hp service request s hro]
  refine ⟨rfl, ?_, rfl⟩
  exact stateful_getChannelState_readsOnly hp service request s hro

/-- Witness of C14: two calls one after the other on stores holding channel 7
with local nonce 3, ledger nonce 2 and a payment under "7/2". -/
theorem stateful_getChannelState_read_only_idempotent_witness :
    (Stateful.GetChannelState sampleHelpers sampleStatefulService (sampleRequest 10)
        sampleStores).2 = sampleStores ∧
      Stateful.GetChannelState sampleHelpers sampleStatefulService (sampleRequest 10)
          (Stateful.GetChannelState sampleHelpers sampleStatefulService (sampleRequest 10)
            sampleStores).2 =
        Stateful.GetChannelState sampleHelpers sampleStatefulService (sampleRequest 10)
          sampleStores ∧
      (Stateful.GetChannelState sampleHelpers sampleStatefulService (sampleRequest 10)
        sampleStores).1 =
        GetChannelState sampleHelpers (sampleStatefulService.snapshot sampleStores)
          (sampleRequest 10) :=
  (stateful_getChannelState_read_only_idempotent sampleHelpers sampleStatefulService
    (sampleRequest 10) sampleStores).2 sampleStatefulService_readsOnly

/-- The two calls of the witness of C14 evaluated: both return the reply with
the old-nonce fields of the stored payment, after the same four reads. -/
theorem stateful_getChannelState_twice_example :
    (Stateful.GetChannelState sampleHelpers sampleStatefulService (sampleRequest 10)
        sampleStores).1 =
        (.ok sampleDualStateReply,
          [.channelStore { ID := 7 }, .channelStore { ID := 7 }, .ledger { ID := 7 },
            .paymentStore "7/2"]) ∧
      (Stateful.GetChannelState sampleHelpers sampleStatefulService (sampleRequest 10)
        (Stateful.GetChannelState sampleHelpers sampleStatefulService (sampleRequest 10)
          sampleStores).2).1 =
        (.ok sampleDualStateReply,
          [.channelStore { ID := 7 }, .channelStore { ID := 7 }, .ledger { ID := 7 },
            .paymentStore "7/2"]) := by
  constructor <;> rfl

/-- Collaborators whose calls change the state are outside the read-only case:
on the collaborators that lose the connection after the first call, a second
call of `GetChannelState` does not return what the first returned. -/
theorem stateful_getChannelState_flaky_example :
    (Stateful.GetChannelState sampleHelpers flakyService (sampleRequest 10) 0).1.1 =
        .ok (currentStateReply sampleHelpers sampleChannel) ∧
      (Stateful.GetChannelState sampleHelpers flakyService (sampleRequest 10)
        (Stateful.GetChannelState sampleHelpers flakyService (sampleRequest 10) 0).2).1.1 =
        .error "channel error:connection lost" := by
  constructor <;> rfl

/-- Counterexample to C7 as stated: the request is authenticated and
authorized (the first Channel Store read returns channel 7 with the recovered
signer), the second Channel Store read, made inside the nonce check, fails with
"connection lost", and `GetChannelState` does not fail: it returns the
single-state reply without reading the ledger. A Channel Store failure is
absorbed like a ledger failure. -/
theorem stateful_getChannelState_absorbs_store_failure :
    recoveredSigner sampleHelpers (sampleRequest 10) = .ok sampleChannel.Signer ∧
      flakyService.PaymentChannel (requestKey sampleHelpers (sampleRequest 10)) 0 =
        (.found sampleChannel, 1) ∧
      flakyService.PaymentChannel (requestKey sampleHelpers (sampleRequest 10)) 1 =
        (.failed "connection lost", 2) ∧
      (Stateful.GetChannelState sampleHelpers flakyService (sampleRequest 10) 0).1 =
        (.ok (currentStateReply sampleHelpers sampleChannel),
          [.channelStore { ID := 7 }, .channelStore { ID := 7 }]) := by
  refine ⟨rfl, rfl, rfl, rfl⟩

/-- C7, amended: a failure of the nonce check is absorbed. For an
authenticated and authorized request (the first Channel Store read returns the
channel, whose Signer is the recovered address), when inside the nonce check
the second Channel Store read or the Ledger Reader read returns an error or
reports the channel absent, `GetChannelState` does not fail and does not read
the Payment Store: it returns the reply built from the channel record alone,
which is the reply it returns when the nonces match. A failed signer recovery,
a first Channel Store read that errors or finds nothing, and a Payment Store
read (made on a nonce mismatch) that errors or finds nothing make
`GetChannelState` fail. -/
theorem stateful_getChannelState_absorbs_nonce_check_failure {σ : Type} (hp : Helpers)
    (service : StatefulService σ) (request : ChannelStateRequest) (s : σ) :
    (∀ channel s1, recoveredSigner hp request = .ok channel.Signer →
        service.PaymentChannel (requestKey hp request) s = (.found channel, s1) →
        ((∃ err s2, service.PaymentChannel (requestKey hp request) s1 = (.failed err, s2)) ∨
          (∃ s2, service.PaymentChannel (requestKey hp request) s1 = (.missing, s2)) ∨
          ∃ channel2 s2,
            service.PaymentChannel (requestKey hp request) s1 = (.found channel2, s2) ∧
            ((∃ err s3, service.PaymentChannelFromBlockChain (requestKey hp request) s2 =
                (.failed err, s3)) ∨
              ∃ s3, service.PaymentChannelFromBlockChain (requestKey hp request) s2 =
                (.missing, s3))) →
        (Stateful.GetChannelState hp service request s).1.1 =
            .ok (currentStateReply hp channel) ∧
          ∀ a ∈ (Stateful.GetChannelState hp service request s).1.2,
            a.isPaymentStore = false) ∧
      (∀ channel s1 channel2 s2 blockchainChannel s3,
        recoveredSigner hp request = .ok channel.Signer →
        service.PaymentChannel (requestKey hp request) s = (.found channel, s1) →
        service.PaymentChannel (requestKey hp request) s1 = (.found channel2, s2) →
        service.PaymentChannelFromBlockChain (requestKey hp request) s2 =
          (.found blockchainChannel, s3) →
        channel2.Nonce = blockchainChannel.Nonce →
        (Stateful.GetChannelState hp service request s).1.1 =
          .ok (currentStateReply hp channel)) ∧
      ((∃ e, recoveredSigner hp request = .error e) →
        ∃ e, (Stateful.GetChannelState hp service request s).1.1 = .error e) ∧
      (∀ sender, recoveredSigner hp request = .ok sender →
        ((∃ err s1, service.PaymentChannel (requestKey hp request) s = (.failed err, s1)) ∨
          ∃ s1, service.PaymentChannel (requestKey hp request) s = (.missing, s1)) →
        ∃ e, (Stateful.GetChannelState hp service request s).1.1 = .error e) ∧
      (∀ channel s1 channel2 s2 blockchainChannel s3,
        recoveredSigner hp request = .ok channel.Signer →
        service.PaymentChannel (requestKey hp request) s = (.found channel, s1) →
        service.PaymentChannel (requestKey hp request) s1 = (.found channel2, s2) →
        service.PaymentChannelFromBlockChain (requestKey hp request) s2 =
          (.found blockchainChannel, s3) →
        channel2.Nonce ≠ blockchainChannel.Nonce →
        ((∃ err s4, service.paymentStorageGet
            (hp.PaymentID channel.ChannelID (channel.Nonce - 1)) s3 = (.failed err, s4)) ∨
          ∃ s4, service.paymentStorageGet
            (hp.PaymentID channel.ChannelID (channel.Nonce - 1)) s3 = (.missing, s4)) →
        ∃ e, (Stateful.GetChannelState hp service request s).1.1 = .error e) := by
  unfold recoveredSigner requestKey
  refine ⟨?_, ?_, ?_, ?_, ?_⟩
  · intro channel s1 hrec hc hfail
    rcases hfail with ⟨err, s2, hc2⟩ | ⟨s2, hc2⟩ | ⟨channel2, s2, hc2, ⟨err, s3, hb⟩ | ⟨s3, hb⟩⟩
    · simp [Stateful.GetChannelState, Stateful.StorageNonceMatchesWithBlockchainNonce, hrec,
        hc, hc2, Access.isPaymentStore]
    · simp [Stateful.GetChannelState, Stateful.StorageNonceMatchesWithBlockchainNonce, hrec,
        hc, hc2, Access.isPaymentStore]
    · simp [Stateful.GetChannelState, Stateful.StorageNonceMatchesWithBlockchainNonce, hrec,
        hc, hc2, hb, Access.isPaymentStore]
    · simp [Stateful.GetChannelState, Stateful.StorageNonceMatchesWithBlockchainNonce, hrec,
        hc, hc2, hb, Access.isPaymentStore]
  · intro channel s1 channel2 s2 blockchainChannel s3 hrec hc hc2 hb heq
    have hcmp : Cmp channel2.Nonce blockchainChannel.Nonce = 0 :=
      (cmp_eq_zero_iff _ _).mpr heq
    simp [Stateful.GetChannelState, Stateful.StorageNonceMatchesWithBlockchainNonce, hrec,
      hc, hc2, hb, hcmp]
  · rintro ⟨e, hrec⟩
    simp only [Stateful.GetChannelState, hrec]
    exact ⟨_, rfl⟩
  · rintro sender hrec (⟨err, s1, hc⟩ | ⟨s1, hc⟩)
    · simp only [Stateful.GetChannelState, hrec, hc]
      exact ⟨_, rfl⟩
    · simp only [Stateful.GetChannelState, hrec, hc]
      exact ⟨_, rfl⟩
  · intro channel s1 channel2 s2 blockchainChannel s3 hrec hc hc2 hb hne hpay
    have hcmp : ¬ Cmp channel2.Nonce blockchainChannel.Nonce = 0 := fun h =>
      hne ((cmp_eq_zero_iff _ _).mp h)
    rcases hpay with ⟨err, s4, hpay⟩ | ⟨s4, hpay⟩
    · simp only [Stateful.GetChannelState, Stateful.StorageNonceMatchesWithBlockchainNonce,
        hrec, hc, hc2, hb, hcmp, hpay, decide_False, ne_eq, not_true_eq_false, if_false]
      exact ⟨_, rfl⟩
    · simp only [Stateful.GetChannelState, Stateful.StorageNonceMatchesWithBlockchainNonce,
        hrec, hc, hc2, hb, hcmp, hpay, decide_False, ne_eq, not_true_eq_false, if_false]
      exact ⟨_, rfl⟩

/-- Witness of C7, amended: the second Channel Store read failing and the
ledger holding no record are both absorbed; a rejected signature, a failing
first Channel Store read and a missing payment on a mismatch each give an
error. -/
theorem stateful_getChannelState_absorbs_nonce_check_failure_witness :
    ((Stateful.GetChannelState sampleHelpers flakyService (sampleRequest 10) 0).1.1 =
          .ok (currentStateReply sampleHelpers sampleChannel) ∧
        ∀ a ∈ (Stateful.GetChannelState sampleHelpers flakyService (sampleRequest 10) 0).1.2,
          a.isPaymentStore = false) ∧
      ((Stateful.GetChannelState sampleHelpers sampleStatefulService (sampleRequest 10)
          sampleStoresNoLedger).1.1 = .ok (currentStateReply sampleHelpers sampleChannel) ∧
        ∀ a ∈ (Stateful.GetChannelState sampleHelpers sampleStatefulService (sampleRequest 10)
          sampleStoresNoLedger).1.2, a.isPaymentStore = false) ∧
      (∃ e, (Stateful.GetChannelState sampleHelpers sampleStatefulService
          { ChannelId := [7], Signature := [1, 2] } sampleStores).1.1 = .error e) ∧
      (∃ e, (Stateful.GetChannelState sampleHelpers flakyService (sampleRequest 10) 1).1.1 =
          .error e) ∧
      (∃ e, (Stateful.GetChannelState sampleHelpers sampleStatefulService (sampleRequest 10)
          sampleStoresNoPayment).1.1 = .error e) :=
  ⟨(stateful_getChannelState_absorbs_nonce_check_failure sampleHelpers flakyService
      (sampleRequest 10) 0).1 sampleChannel 1 rfl rfl (Or.inl ⟨"connection lost", 2, rfl⟩),
    (stateful_getChannelState_absorbs_nonce_check_failure sampleHelpers sampleStatefulService
      (sampleRequest 10) sampleStoresNoLedger).1 sampleChannel sampleStoresNoLedger rfl rfl
      (Or.inr (Or.inr ⟨sampleChannel, sampleStoresNoLedger, rfl,
        Or.inr ⟨sampleStoresNoLedger, rfl⟩⟩)),
    (stateful_getChannelState_absorbs_nonce_check_failure sampleHelpers sampleStatefulService
      { ChannelId := [7], Signature := [1, 2] } sampleStores).2.2.1
      ⟨"invalid signature length", rfl⟩,
    (stateful_getChannelState_absorbs_nonce_check_failure sampleHelpers flakyService
      (sampleRequest 10) 1).2.2.2.1 10 rfl (Or.inl ⟨"connection lost", 2, rfl⟩),
    (stateful_getChannelState_absorbs_nonce_check_failure sampleHelpers sampleStatefulService
      (sampleRequest 10) sampleStoresNoPayment).2.2.2.2 sampleChannel sampleStoresNoPayment
      sampleChannel sampleStoresNoPayment (sampleLedgerChannel 2) sampleStoresNoPayment
      rfl rfl rfl rfl (by decide) (Or.inr ⟨sampleStoresNoPayment, rfl⟩)⟩

end Escrow

namespace Blockchain

/-! ## FormatHash -/

/-- A list of kept characters does not start with "ipfs://". -/
theorem withoutIpfsScheme_of_kept (chars : List Char)
    (hall : ∀ c ∈ chars, hashCharKept c = true) : withoutIpfsScheme chars = chars := by
  unfold withoutIpfsScheme
  split
  · rename_i h
    exfalso
    rcases chars with _ | ⟨a, _ | ⟨b, _ | ⟨c, _ | ⟨d, _ | ⟨e, t⟩⟩⟩⟩⟩ <;>
      simp [IpfsScheme, List.isPrefixOf] at h
    have hkept := hall e (by simp)
    rw [← h.2.2.2.2.1] at hkept
    exact absurd hkept (by decide)
  · rfl

/-- Stripping the scheme from a list that starts with it leaves the rest. -/
theorem withoutIpfsScheme_append (rest : List Char) :
    withoutIpfsScheme (IpfsScheme.data ++ rest) = rest := by
  simp [withoutIpfsScheme, IpfsScheme, List.isPrefixOf, String.length]

/-- Stripping the scheme yields a sublist. -/
theorem withoutIpfsScheme_sublist (chars : List Char) :
    (withoutIpfsScheme chars).Sublist chars := by
  unfold withoutIpfsScheme
  split
  · exact List.drop_sublist _ _
  · exact List.Sublist.refl _

/-- C17: `FormatHash` returns the input without its "ipfs://" prefix and
without any character other than an ASCII letter, a digit or the equals sign,
the kept characters in their original order; it maps
"ipfs://Here is a string....+=" to "Hereisastring=", a hash followed by NUL
bytes to the hash, and its own output to itself. -/
theorem formatHash_spec (ipfsHash : String) :
    (∀ rest, ipfsHash.data = IpfsScheme.data ++ rest →
        (FormatHash ipfsHash).data = rest.filter hashCharKept) ∧
      (IpfsScheme.data.isPrefixOf ipfsHash.data = false →
        (FormatHash ipfsHash).data = ipfsHash.data.filter hashCharKept) ∧
      (∀ c ∈ (FormatHash ipfsHash).data,
        c.isAlpha = true ∨ c.isDigit = true ∨ c = '=') ∧
      (FormatHash ipfsHash).data.Sublist ipfsHash.data ∧
      FormatHash (FormatHash ipfsHash) = FormatHash ipfsHash ∧
      FormatHash "ipfs://Here is a string....+=" = "Hereisastring=" ∧
      sampleHashPadded ≠ sampleHash ∧ FormatHash sampleHashPadded = sampleHash := by
  refine ⟨?_, ?_, ?_, ?_, ?_, by decide, by decide, by decide⟩
  · intro rest hrest
    simp only [FormatHash, hrest, withoutIpfsScheme_append]
  · intro hno
    simp only [FormatHash, withoutIpfsScheme, hno, Bool.false_eq_true, if_false]
  · intro c hc
    have hkept : hashCharKept c = true := (List.mem_filter.mp hc).2
    simp only [hashCharKept, Bool.or_eq_true, beq_iff_eq] at hkept
    rcases hkept with (h | h) | h
    · exact Or.inl h
    · exact Or.inr (Or.inl h)
    · exact Or.inr (Or.inr h)
  · exact (List.filter_sublist _).trans (withoutIpfsScheme_sublist _)
  · unfold FormatHash
    rw [withoutIpfsScheme_of_kept _ (fun c hc => (List.mem_filter.mp hc).2),
      List.filter_filter]
    simp

/-- Witness of C17: the prefixed input of `TestFormatHash`. -/
theorem formatHash_spec_witness :
    (FormatHash "ipfs://Here is a string....+=").data =
      "Here is a string....+=".data.filter hashCharKept :=
  (formatHash_spec "ipfs://Here is a string....+=").1 "Here is a string....+=".data rfl

/-! ## BytesToBase64 -/

/-- The encoding of n bytes has 4 * ceil(n / 3) characters. -/
theorem base64Groups_length (bytes : List Nat) :
    (base64Groups bytes).length = 4 * ((bytes.length + 2) / 3) := by
  induction bytes using base64Groups.induct with
  | case1 => rfl
  | case2 a => simp [base64Groups]
  | case3 a b => simp [base64Groups]
  | case4 a b c rest ih =>
      simp only [base64Groups, List.length_cons, ih]
      omega

/-- The character of a six-bit value belongs to the alphabet. -/
theorem base64Char_mem (sextet : Nat) : base64Char sextet ∈ base64Alphabet := by
  unfold base64Char
  have hlen : base64Alphabet.length = 64 := by decide
  have h : sextet % 64 < base64Alphabet.length := by omega
  rw [List.getD_eq_getElem _ _ h]
  exact List.getElem_mem _

/-- Every character of an encoding is in the alphabet or is the padding sign. -/
theorem base64Groups_chars (bytes : List Nat) :
    ∀ c ∈ base64Groups bytes, c ∈ base64Alphabet ∨ c = '=' := by
  induction bytes using base64Groups.induct with
  | case1 => intro c hc; cases hc
  | case2 a =>
      intro c hc
      simp only [base64Groups, List.mem_cons, List.mem_singleton, List.not_mem_nil,
        or_false] at hc
      rcases hc with rfl | rfl | rfl | rfl
      · exact Or.inl (base64Char_mem _)
      · exact Or.inl (base64Char_mem _)
      · exact Or.inr rfl
      · exact Or.inr rfl
  | case3 a b =>
      intro c hc
      simp only [base64Groups, List.mem_cons, List.mem_singleton, List.not_mem_nil,
        or_false] at hc
      rcases hc with rfl | rfl | rfl | rfl
      · exact Or.inl (base64Char_mem _)
      · exact Or.inl (base64Char_mem _)
      · exact Or.inl (base64Char_mem _)
      · exact Or.inr rfl
  | case4 a b c rest ih =>
      intro x hx
      simp only [base64Groups, List.mem_cons] at hx
      rcases hx with rfl | rfl | rfl | rfl | hx
      · exact Or.inl (base64Char_mem _)
      · exact Or.inl (base64Char_mem _)
      · exact Or.inl (base64Char_mem _)
      · exact Or.inl (base64Char_mem _)
      · exact ih x hx

/-- C18: `BytesToBase64` returns the standard base64 encoding with padding: for
n bytes it has 4 * ceil(n / 3) characters, each from the RFC 4648 alphabet or
the equals sign; the bytes [1, 2, 254, 255] give "AQL+/w==", and the test
vectors of RFC 4648 ("f", "fo", "foo", "foob", "fooba", "foobar") are met. -/
theorem bytesToBase64_spec (bytes : List Nat) :
    (BytesToBase64 bytes).length = 4 * ((bytes.length + 2) / 3) ∧
      (∀ c ∈ (BytesToBase64 bytes).data, c ∈ base64Alphabet ∨ c = '=') ∧
      BytesToBase64 [1, 2, 254, 255] = "AQL+/w==" ∧
      BytesToBase64 [] = "" ∧ BytesToBase64 [102] = "Zg==" ∧
      BytesToBase64 [102, 111] = "Zm8=" ∧ BytesToBase64 [102, 111, 111] = "Zm9v" ∧
      BytesToBase64 [102, 111, 111, 98] = "Zm9vYg==" ∧
      BytesToBase64 [102, 111, 111, 98, 97] = "Zm9vYmE=" ∧
      BytesToBase64 [102, 111, 111, 98, 97, 114] = "Zm9vYmFy" := by
  refine ⟨?_, ?_, by decide, by decide, by decide, by decide, by decide, by decide, by decide,
    by decide⟩
  · simp only [BytesToBase64, String.length, base64Groups_length, List.length_map]
  · exact base64Groups_chars _

/-- Witness of C18: the four bytes of `TestBytesToBase64` give eight characters. -/
theorem bytesToBase64_spec_witness :
    (BytesToBase64 [1, 2, 254, 255]).length = 4 * (([1, 2, 254, 255].length + 2) / 3) ∧
      BytesToBase64 [1, 2, 254, 255] = "AQL+/w==" :=
  ⟨(bytesToBase64_spec [1, 2, 254, 255]).1, (bytesToBase64_spec [1, 2, 254, 255]).2.2.1⟩

end Blockchain
